import Mathlib

/-!
Shallow embedding of the web subscription manager
(src/web_subscription_manager.js): a per-participant subscription
state machine with a bounded retry loop, event handlers for the four
lifecycle notifications of the external real-time client, a bounded
attempt history, and per-participant polling-retry timers.

Modelling conventions:
* JS timestamps (new Date()) are natural numbers supplied as a `now`
  parameter to each operation.
* The external client is an `Env`: its remote-user snapshot, the bot
  classifier predicate, and the outcome of each client.subscribe /
  client.unsubscribe call, indexed by a call counter kept in the state.
* A rejected promise (including the engine-side timeout) is
  `SubscribeOutcome.raised`; a settled promise carries the JS
  truthiness of its value as a `Bool`.
* Consumer callbacks may throw; a throwing callback is an
  `Except.error`.  The source wraps every invocation in try/catch and
  only logs the error, which the model records in the ghost field
  `caughtErrors`.  Ghost fields (`sleeps`, call counters,
  `caughtErrors`) record externally observable effects that the JS
  state does not store.
-/

namespace WebSubMgr

set_option autoImplicit false
set_option linter.unusedVariables false

/-- A participant identifier as delivered by the backend or the SDK: it may
arrive as a string or as a number (source: header comment above normalizeUID). -/
inductive UID where
  | str (s : String)
  | num (n : Nat)
deriving DecidableEq, Repr

/-- Source function normalizeUID: String(uid).  JS String() on a number yields
its decimal representation. -/
def normalizeUID : UID → String
  | UID.str s => s
  | UID.num n => toString n

/-- A remote user object owned by the external client, exposing an id and the
last-reported media availability flags. -/
structure RemoteUser where
  uid : UID
  hasAudio : Bool
  hasVideo : Bool
deriving DecidableEq, Repr

/-- Source function findRemoteUser: find the element of client.remoteUsers whose
normalized uid equals the normalized target. -/
def findRemoteUser (remoteUsers : List RemoteUser) (targetUid : UID) : Option RemoteUser :=
  remoteUsers.find? (fun u => normalizeUID u.uid == normalizeUID targetUid)

/-- The SubscriptionState enum of the source. -/
inductive SubscriptionState where
  | not_subscribed
  | subscribing
  | subscribed
  | subscription_failed
  | unsubscribing
deriving DecidableEq, Repr

/-- A media kind; the source dispatches on the strings "audio" and "video". -/
inductive MediaType where
  | audio
  | video
deriving DecidableEq, Repr

/-- A subscription record.  A JS record is a plain object whose fields may be
undefined; fields that the source only ever reads through falsy-tolerant
checks (=== true, || false) are plain Bools defaulting to false, while fields
whose absence is observable (the state enums, timestamps, the user reference)
are Options with none meaning undefined. -/
structure SubscriptionInfo where
  user : Option RemoteUser := none
  hasAudio : Bool := false
  hasVideo : Bool := false
  state : Option SubscriptionState := none
  audioState : Option SubscriptionState := none
  videoState : Option SubscriptionState := none
  audioSubscribed : Bool := false
  videoSubscribed : Bool := false
  joinedAt : Option Nat := none
  updatedAt : Option Nat := none
deriving DecidableEq, Repr

/-- One entry of subscriptionHistory, as built by recordSubscriptionAttempt. -/
structure HistoryRecord where
  uid : UID
  mediaType : MediaType
  success : Bool
  attempt : Nat
  timestamp : Nat
  errorMessage : Option String
deriving DecidableEq, Repr

/-- Lookup in the subscriptions Map.  Every insertion keys by the normalized
(string) uid, so the map is modelled as an insertion-ordered association list
with String keys. -/
def regGet (subs : List (String × SubscriptionInfo)) (k : String) : Option SubscriptionInfo :=
  (subs.find? (fun p => p.fst == k)).map Prod.snd

/-- Map.set: replace in place if the key exists, else append (JS Maps keep
insertion order). -/
def regSet (subs : List (String × SubscriptionInfo)) (k : String) (v : SubscriptionInfo) :
    List (String × SubscriptionInfo) :=
  if subs.any (fun p => p.fst == k) then
    subs.map (fun p => if p.fst == k then (k, v) else p)
  else
    subs ++ [(k, v)]

/-- Source line 721: this.subscriptions.delete(uid) inside
cleanupUserSubscription passes the RAW uid, while every insertion into the map
keys by normalizeUID (always a String).  JS Map equality is SameValueZero,
under which a number never equals a string, so deleting with a numeric uid
removes nothing. -/
def regDeleteRaw (subs : List (String × SubscriptionInfo)) (uid : UID) :
    List (String × SubscriptionInfo) :=
  match uid with
  | UID.str s => subs.filter (fun p => p.fst != s)
  | UID.num _ => subs

/-- Lookup in the retryTimers Map.  This map is keyed by the raw uid exactly as
passed to scheduleBotSubscriptionRetry (the source never normalizes it), so
keys are UID values compared by SameValueZero, under which a numeric uid and
its string form are distinct keys. -/
def timersGet (ts : List (UID × Nat)) (uid : UID) : Option Nat :=
  (ts.find? (fun p => p.fst == uid)).map Prod.snd

/-- Map.set for retryTimers. -/
def timersSet (ts : List (UID × Nat)) (uid : UID) (t : Nat) : List (UID × Nat) :=
  if ts.any (fun p => p.fst == uid) then
    ts.map (fun p => if p.fst == uid then (uid, t) else p)
  else
    ts ++ [(uid, t)]

/-- Map.delete for retryTimers. -/
def timersDelete (ts : List (UID × Nat)) (uid : UID) : List (UID × Nat) :=
  ts.filter (fun p => p.fst != uid)

/-- The mutable state of a WebSubscriptionManager instance, plus ghost trace
fields: subscribeCalls / unsubscribeCalls count the external client calls (and
index their outcomes in Env), sleeps lists every backoff sleep performed,
nextTimerId allocates setTimeout ids (positive, as in browsers), the *CbCalls
counters count consumer-callback invocations, and caughtErrors collects the
messages of callback exceptions the engine caught and logged. -/
structure EngineState where
  subscriptions : List (String × SubscriptionInfo) := []
  subscriptionHistory : List HistoryRecord := []
  retryTimers : List (UID × Nat) := []
  nextTimerId : Nat := 1
  subscribeCalls : Nat := 0
  unsubscribeCalls : Nat := 0
  sleeps : List Nat := []
  stateCbCalls : Nat := 0
  successCbCalls : Nat := 0
  failedCbCalls : Nat := 0
  caughtErrors : List String := []
deriving DecidableEq, Repr

/-- Constructor options as supplied by the caller; none models an absent
(undefined) field. -/
structure RawOptions where
  maxRetryAttempts : Option Nat := none
  retryDelay : Option Nat := none
  subscriptionTimeout : Option Nat := none
  enableAutoSubscribe : Option Bool := none
deriving DecidableEq, Repr

/-- JS expression v || d on a possibly-undefined number: undefined and 0 are
falsy. -/
def jsOr (v : Option Nat) (d : Nat) : Nat :=
  match v with
  | none => d
  | some n => if n == 0 then d else n

/-- The resolved this.options of a constructed manager. -/
structure Options where
  maxRetryAttempts : Nat
  retryDelay : Nat
  subscriptionTimeout : Nat
  enableAutoSubscribe : Bool
deriving DecidableEq, Repr

/-- The defaulting performed in the constructor (lines 54-61):
maxRetryAttempts || 3, retryDelay || 2000, subscriptionTimeout || 10000,
enableAutoSubscribe !== false. -/
def resolveOptions (o : RawOptions) : Options :=
  { maxRetryAttempts := jsOr o.maxRetryAttempts 3
    retryDelay := jsOr o.retryDelay 2000
    subscriptionTimeout := jsOr o.subscriptionTimeout 10000
    enableAutoSubscribe := o.enableAutoSubscribe != some false }

/-- Options of a manager constructed with no explicit options. -/
def defaultOptions : Options := resolveOptions {}

/-- Line 237: const maxAttempts = this.options.maxRetryAttempts || 5.
Since this.options.maxRetryAttempts was itself defaulted in the constructor,
the || 5 branch fires only if it is 0 (falsy). -/
def botRetryMaxAttempts (opts : Options) : Nat :=
  if opts.maxRetryAttempts == 0 then 5 else opts.maxRetryAttempts

/-- Line 238: const retryDelay = this.options.retryDelay || 1000. -/
def botRetryDelay (opts : Options) : Nat :=
  if opts.retryDelay == 0 then 1000 else opts.retryDelay

/-- Outcome of one client.subscribe call: the promise settles with a value of
the given JS truthiness, or rejects (an SDK error, or the engine-side timeout
built in performSubscription). -/
inductive SubscribeOutcome where
  | resolved (result : Bool)
  | raised (msg : String)
deriving DecidableEq, Repr

/-- The external client and ambient globals, as consumed by the engine:
the remote-user snapshot, the bot classifier read from
window.WebUIDValidator.isBotUser, and the outcome of the n-th
subscribe/unsubscribe call (indexed by the call counters of EngineState).
For unsubscribe, none means the promise resolves and some msg that it
rejects. -/
structure Env where
  remoteUsers : List RemoteUser
  isBot : UID → Bool
  subscribeOutcome : Nat → RemoteUser → MediaType → SubscribeOutcome
  unsubscribeOutcome : Nat → RemoteUser → MediaType → Option String

/-- The three consumer-supplied callback slots; none models an unset slot.
A callback that throws is modelled by returning Except.error. -/
structure Callbacks where
  onSubscriptionSuccess : Option (UID → MediaType → Bool → Except String Unit) := none
  onSubscriptionFailed : Option (UID → MediaType → String → Except String Unit) := none
  onSubscriptionStateChanged : Option (UID → MediaType → SubscriptionState → Except String Unit) := none

/-- No callbacks installed. -/
def noCallbacks : Callbacks := {}

/-- The try/catch wrapped around every callback invocation in the source: a
thrown error is logged (recorded in the ghost field) and swallowed. -/
def noteCallbackOutcome (r : Except String Unit) (st : EngineState) : EngineState :=
  match r with
  | Except.ok _ => st
  | Except.error e => { st with caughtErrors := st.caughtErrors ++ [e] }

/-- Lines 671-679: if (this.onSubscriptionStateChanged) try { cb(uid,
mediaType, state) } catch. -/
def invokeStateChanged (cbs : Callbacks) (uid : UID) (mt : MediaType)
    (s : SubscriptionState) (st : EngineState) : EngineState :=
  match cbs.onSubscriptionStateChanged with
  | none => st
  | some cb => noteCallbackOutcome (cb uid mt s) { st with stateCbCalls := st.stateCbCalls + 1 }

/-- Lines 483-491: if (this.onSubscriptionSuccess) try { cb(uid, mediaType,
result) } catch. -/
def invokeSuccess (cbs : Callbacks) (uid : UID) (mt : MediaType)
    (result : Bool) (st : EngineState) : EngineState :=
  match cbs.onSubscriptionSuccess with
  | none => st
  | some cb => noteCallbackOutcome (cb uid mt result) { st with successCbCalls := st.successCbCalls + 1 }

/-- Lines 522-530: if (this.onSubscriptionFailed) try { cb(uid, mediaType,
error) } catch. -/
def invokeFailed (cbs : Callbacks) (uid : UID) (mt : MediaType)
    (msg : String) (st : EngineState) : EngineState :=
  match cbs.onSubscriptionFailed with
  | none => st
  | some cb => noteCallbackOutcome (cb uid mt msg) { st with failedCbCalls := st.failedCbCalls + 1 }

/-- The per-kind mutation of updateSubscriptionState (lines 658-668): set the
state enum for the kind, derive the subscribed flag from state ===
SUBSCRIBED, and refresh updatedAt. -/
def setKindState (i : SubscriptionInfo) (mt : MediaType) (s : SubscriptionState)
    (now : Nat) : SubscriptionInfo :=
  match mt with
  | MediaType.audio =>
    { i with audioState := some s,
             audioSubscribed := s == SubscriptionState.subscribed,
             updatedAt := some now }
  | MediaType.video =>
    { i with videoState := some s,
             videoSubscribed := s == SubscriptionState.subscribed,
             updatedAt := some now }

/-- Source _updateSubscriptionState (lines 653-680): no-op when the record
does not exist (the early return precedes both the mutation and the
callback); otherwise mutate the record and invoke the state-change callback
under try/catch. -/
def updateSubscriptionState (cbs : Callbacks) (uid : UID) (mt : MediaType)
    (s : SubscriptionState) (now : Nat) (st : EngineState) : EngineState :=
  match regGet st.subscriptions (normalizeUID uid) with
  | none => st
  | some info =>
    let st1 := { st with
      subscriptions := regSet st.subscriptions (normalizeUID uid) (setKindState info mt s now) }
    invokeStateChanged cbs uid mt s st1

/-- The partial-field objects passed to _updateSubscriptionInfo; none models an
absent field.  The published-handler fallback also passes updatedAt, but the
merge in the source overrides updatedAt with new Date() after spreading the
patch, so the field is omitted here. -/
structure InfoPatch where
  user : Option RemoteUser := none
  hasAudio : Option Bool := none
  hasVideo : Option Bool := none
  state : Option SubscriptionState := none
  joinedAt : Option Nat := none
deriving Repr

/-- Spread-merge of one field: a field present in the patch wins. -/
def overrideField {α : Type} (p : Option α) (e : Option α) : Option α :=
  match p with
  | some v => some v
  | none => e

/-- The object spread { ...existing, ...info, updatedAt: new Date() } of
_updateSubscriptionInfo (line 646). -/
def applyPatch (e : SubscriptionInfo) (p : InfoPatch) (now : Nat) : SubscriptionInfo :=
  { user := overrideField p.user e.user
    hasAudio := (p.hasAudio).getD e.hasAudio
    hasVideo := (p.hasVideo).getD e.hasVideo
    state := overrideField p.state e.state
    audioState := e.audioState
    videoState := e.videoState
    audioSubscribed := e.audioSubscribed
    videoSubscribed := e.videoSubscribed
    joinedAt := overrideField p.joinedAt e.joinedAt
    updatedAt := some now }

/-- Source _updateSubscriptionInfo (lines 643-648): merge the patch into the
existing record (or an empty object) and store under the normalized uid. -/
def updateSubscriptionInfo (uid : UID) (p : InfoPatch) (now : Nat)
    (st : EngineState) : EngineState :=
  let k := normalizeUID uid
  let existing := (regGet st.subscriptions k).getD {}
  { st with subscriptions := regSet st.subscriptions k (applyPatch existing p now) }

/-- Source _recordSubscriptionAttempt (lines 685-707): push the record, then if
the length exceeds 100 keep only the last 50 (slice(-50)). -/
def recordSubscriptionAttempt (uid : UID) (mt : MediaType) (success : Bool)
    (attempt : Nat) (errorMessage : Option String) (now : Nat)
    (hist : List HistoryRecord) : List HistoryRecord :=
  let hist2 := hist ++ [{ uid := uid, mediaType := mt, success := success,
                          attempt := attempt, timestamp := now,
                          errorMessage := errorMessage }]
  if hist2.length > 100 then hist2.drop (hist2.length - 50) else hist2

/-- recordSubscriptionAttempt lifted to the engine state. -/
def recordAttemptSt (uid : UID) (mt : MediaType) (success : Bool) (attempt : Nat)
    (errorMessage : Option String) (now : Nat) (st : EngineState) : EngineState :=
  { st with subscriptionHistory :=
      recordSubscriptionAttempt uid mt success attempt errorMessage now st.subscriptionHistory }

/-- Source _isAlreadySubscribed (lines 626-638): the flag === true check on the
record found under the normalized uid. -/
def isAlreadySubscribed (st : EngineState) (uid : UID) (mt : MediaType) : Bool :=
  match regGet st.subscriptions (normalizeUID uid) with
  | none => false
  | some info =>
    match mt with
    | MediaType.audio => info.audioSubscribed
    | MediaType.video => info.videoSubscribed

/-- Source _sleep: records the awaited duration in the ghost trace. -/
def sleepSt (ms : Nat) (st : EngineState) : EngineState :=
  { st with sleeps := st.sleeps ++ [ms] }

/-- Source _performSubscription (lines 545-571): one client.subscribe call
racing the engine timeout.  The outcome of the call is supplied by the
environment, indexed by the running call counter; a timeout rejection is a
raised outcome like any other. -/
def performSubscription (env : Env) (user : RemoteUser) (mt : MediaType)
    (st : EngineState) : SubscribeOutcome × EngineState :=
  (env.subscribeOutcome st.subscribeCalls user mt,
   { st with subscribeCalls := st.subscribeCalls + 1 })

/-- The for-loop of _subscribeWithRetry (lines 454-533).  The fuel argument is
the number of iterations the loop condition still admits; entering with
attempt = 1 and fuel = maxAttempts makes fuel > 0 coincide with attempt <=
maxAttempts, and the comparisons on attempt are the ones of the source.
A resolved-but-falsy result skips both the success branch and the catch
block, so the loop proceeds with no history entry and no sleep. -/
def subscribeWithRetryLoop (env : Env) (cbs : Callbacks) (maxAttempts retryDelay : Nat)
    (uid : UID) (user : RemoteUser) (mt : MediaType) (now : Nat)
    (attempt : Nat) (fuel : Nat) (st : EngineState) : Bool × EngineState :=
  match fuel with
  | 0 => (false, st)
  | fuel' + 1 =>
    let st1 := updateSubscriptionState cbs uid mt SubscriptionState.subscribing now st
    let r := performSubscription env user mt st1
    match r.fst with
    | SubscribeOutcome.resolved true =>
      let st3 := updateSubscriptionState cbs uid mt SubscriptionState.subscribed now r.snd
      let st4 := recordAttemptSt uid mt true attempt none now st3
      (true, invokeSuccess cbs uid mt true st4)
    | SubscribeOutcome.resolved false =>
      subscribeWithRetryLoop env cbs maxAttempts retryDelay uid user mt now (attempt + 1) fuel' r.snd
    | SubscribeOutcome.raised msg =>
      let st3 := recordAttemptSt uid mt false attempt (some msg) now r.snd
      if attempt < maxAttempts then
        let st4 := sleepSt (retryDelay * attempt) st3
        subscribeWithRetryLoop env cbs maxAttempts retryDelay uid user mt now (attempt + 1) fuel' st4
      else
        let st4 := updateSubscriptionState cbs uid mt SubscriptionState.subscription_failed now st3
        (false, invokeFailed cbs uid mt msg st4)

/-- Source _subscribeWithRetry entry (lines 449-453): per-call option overrides
with the same || fallback as the constructor. -/
def subscribeWithRetry (env : Env) (cbs : Callbacks) (opts : Options)
    (optMax optDelay : Option Nat) (uid : UID) (user : RemoteUser) (mt : MediaType)
    (now : Nat) (st : EngineState) : Bool × EngineState :=
  let maxAttempts := jsOr optMax opts.maxRetryAttempts
  let retryDelay := jsOr optDelay opts.retryDelay
  subscribeWithRetryLoop env cbs maxAttempts retryDelay uid user mt now 1 maxAttempts st

/-- The checks of subscribeToUser that run once a record is at hand (lines
420-443): missing user object, media-kind availability on the stored user
object, then the already-subscribed short-circuit, then the retry loop. -/
def subscribeToUserChecked (env : Env) (cbs : Callbacks) (opts : Options)
    (optMax optDelay : Option Nat) (uid : UID) (mt : MediaType) (now : Nat)
    (st : EngineState) (info : SubscriptionInfo) : Bool × EngineState :=
  match info.user with
  | none => (false, st)
  | some user =>
    if mt == MediaType.audio && !user.hasAudio then (false, st)
    else if mt == MediaType.video && !user.hasVideo then (false, st)
    else if isAlreadySubscribed st uid mt then (true, st)
    else subscribeWithRetry env cbs opts optMax optDelay uid user mt now st

/-- Source subscribeToUser (lines 398-444): look up the record; if absent, fall
back to registering the user found in client.remoteUsers, else fail; then run
the checks and the retry loop. -/
def subscribeToUser (env : Env) (cbs : Callbacks) (opts : Options)
    (optMax optDelay : Option Nat) (uid : UID) (mt : MediaType) (now : Nat)
    (st : EngineState) : Bool × EngineState :=
  match regGet st.subscriptions (normalizeUID uid) with
  | some info => subscribeToUserChecked env cbs opts optMax optDelay uid mt now st info
  | none =>
    match findRemoteUser env.remoteUsers uid with
    | some userFromSDK =>
      let st1 := updateSubscriptionInfo uid
        { user := some userFromSDK, hasAudio := some userFromSDK.hasAudio,
          hasVideo := some userFromSDK.hasVideo,
          state := some SubscriptionState.not_subscribed,
          joinedAt := some now } now st
      match regGet st1.subscriptions (normalizeUID uid) with
      | some info => subscribeToUserChecked env cbs opts optMax optDelay uid mt now st1 info
      | none => (false, st1)
    | none => (false, st)

/-- Source _clearBotSubscriptionRetry (lines 306-313): the if (timerId) guard
is a truthiness test, so a timer id of 0 would not be cleared; the model
allocates ids from 1 so stored ids are never 0. -/
def clearBotSubscriptionRetry (uid : UID) (st : EngineState) : EngineState :=
  match timersGet st.retryTimers uid with
  | some timerId =>
    if timerId != 0 then { st with retryTimers := timersDelete st.retryTimers uid } else st
  | none => st

/-- Source _scheduleBotSubscriptionRetry (lines 233-300): clear any previous
timer for the raw uid, then store the initial setTimeout id under the raw
uid.  The polling body itself runs on later timer fires (asynchronous events
outside the synchronous operations modelled here); its attempt budget and
interval are botRetryMaxAttempts / botRetryDelay. -/
def scheduleBotSubscriptionRetry (uid : UID) (st : EngineState) : EngineState :=
  let st1 := clearBotSubscriptionRetry uid st
  { st1 with retryTimers := timersSet st1.retryTimers uid st1.nextTimerId,
             nextTimerId := st1.nextTimerId + 1 }

/-- Source _cleanupUserSubscription (lines 712-724): clear the timer found
under the raw uid (if (timer) truthiness guard), then delete the record with
the raw uid (see regDeleteRaw for why a numeric uid deletes nothing). -/
def cleanupUserSubscription (uid : UID) (st : EngineState) : EngineState :=
  let st1 :=
    match timersGet st.retryTimers uid with
    | some timerId =>
      if timerId != 0 then { st with retryTimers := timersDelete st.retryTimers uid } else st
    | none => st
  { st1 with subscriptions := regDeleteRaw st1.subscriptions uid }

/-- Source _handleUserUnpublished (lines 318-336): clear the availability flag
and the subscribed flag of the published kind; the state enum and updatedAt
are left untouched (direct field mutation, not via updateSubscriptionInfo). -/
def handleUserUnpublished (user : RemoteUser) (mt : MediaType) (st : EngineState) : EngineState :=
  match regGet st.subscriptions (normalizeUID user.uid) with
  | none => st
  | some info =>
    let info2 :=
      match mt with
      | MediaType.audio => { info with hasAudio := false, audioSubscribed := false }
      | MediaType.video => { info with hasVideo := false, videoSubscribed := false }
    { st with subscriptions := regSet st.subscriptions (normalizeUID user.uid) info2 }

/-- Source _handleUserLeft (lines 362-367). -/
def handleUserLeft (user : RemoteUser) (st : EngineState) : EngineState :=
  cleanupUserSubscription user.uid st

/-- Source _attemptAutoSubscription (lines 372-393): only audio is collected
(the video push is commented out in the source), so at most one
subscribeToUser call. -/
def attemptAutoSubscription (env : Env) (cbs : Callbacks) (opts : Options)
    (user : RemoteUser) (now : Nat) (st : EngineState) : EngineState :=
  if user.hasAudio then
    (subscribeToUser env cbs opts none none user.uid MediaType.audio now st).snd
  else st

/-- Source _handleUserJoined (lines 127-165): record the user, auto-subscribe
when enabled and media is announced, and for bot users with audio issue one
extra safety-net subscribe (its audioTrack.play side effect is rendering,
out of scope).  subscribeToUser in this model never throws, so the catch
branch of the safety net is unreachable. -/
def handleUserJoined (env : Env) (cbs : Callbacks) (opts : Options)
    (user : RemoteUser) (now : Nat) (st : EngineState) : EngineState :=
  let st1 := updateSubscriptionInfo user.uid
    { state := some SubscriptionState.not_subscribed, user := some user,
      joinedAt := some now, hasAudio := some user.hasAudio,
      hasVideo := some user.hasVideo } now st
  let st2 :=
    if opts.enableAutoSubscribe then
      if user.hasAudio || user.hasVideo then
        attemptAutoSubscription env cbs opts user now st1
      else st1
    else st1
  if user.hasAudio && env.isBot user.uid then
    (subscribeToUser env cbs opts none none user.uid MediaType.audio now st2).snd
  else st2

/-- Source _handleUserPublished (lines 171-226): refresh the record (direct
mutation when it exists, updateSubscriptionInfo fallback when the joined
notification was missed - in that branch subscriptionInfo is undefined, so
the optional-chained joinedAt falls back to new Date()); auto-subscribe on
audio; then the bot branch: schedule the polling retry when not subscribed
and the reported audio flag is false, or try one direct subscribe when the
flag is true (subscribeToUser never throws in this model, so its catch
fallback to the polling retry is unreachable). -/
def handleUserPublished (env : Env) (cbs : Callbacks) (opts : Options)
    (user : RemoteUser) (mt : MediaType) (now : Nat) (st : EngineState) : EngineState :=
  let st1 :=
    match regGet st.subscriptions (normalizeUID user.uid) with
    | some info =>
      let info2 := { info with hasAudio := user.hasAudio, hasVideo := user.hasVideo,
                               user := some user }
      { st with subscriptions := regSet st.subscriptions (normalizeUID user.uid) info2 }
    | none =>
      updateSubscriptionInfo user.uid
        { user := some user, hasAudio := some user.hasAudio,
          hasVideo := some user.hasVideo,
          state := some SubscriptionState.not_subscribed,
          joinedAt := some now } now st
  let st2 :=
    if opts.enableAutoSubscribe && mt == MediaType.audio then
      (subscribeToUser env cbs opts none none user.uid mt now st1).snd
    else st1
  if mt == MediaType.audio && env.isBot user.uid then
    if !isAlreadySubscribed st2 user.uid mt && !user.hasAudio then
      scheduleBotSubscriptionRetry user.uid st2
    else if !isAlreadySubscribed st2 user.uid mt && user.hasAudio then
      (subscribeToUser env cbs opts none none user.uid mt now st2).snd
    else st2
  else st2

/-- Source unsubscribeFromUser (lines 576-621): missing record or user object
fail early; otherwise transition UNSUBSCRIBING, call client.unsubscribe, and
transition NOT_SUBSCRIBED on success or SUBSCRIPTION_FAILED on a rejection. -/
def unsubscribeFromUser (env : Env) (cbs : Callbacks) (opts : Options)
    (uid : UID) (mt : MediaType) (now : Nat) (st : EngineState) : Bool × EngineState :=
  match regGet st.subscriptions (normalizeUID uid) with
  | none => (false, st)
  | some info =>
    match info.user with
    | none => (false, st)
    | some user =>
      let st1 := updateSubscriptionState cbs uid mt SubscriptionState.unsubscribing now st
      let outcome := env.unsubscribeOutcome st1.unsubscribeCalls user mt
      let st2 := { st1 with unsubscribeCalls := st1.unsubscribeCalls + 1 }
      match outcome with
      | none =>
        (true, updateSubscriptionState cbs uid mt SubscriptionState.not_subscribed now st2)
      | some _ =>
        (false, updateSubscriptionState cbs uid mt SubscriptionState.subscription_failed now st2)

/-- One externally triggered operation of the engine: the four lifecycle
notifications and the two public subscribe/unsubscribe entry points. -/
inductive EngineOp where
  | joined (user : RemoteUser)
  | published (user : RemoteUser) (mt : MediaType)
  | unpublished (user : RemoteUser) (mt : MediaType)
  | left (user : RemoteUser)
  | subscribe (uid : UID) (mt : MediaType)
  | unsubscribe (uid : UID) (mt : MediaType)
deriving Repr

/-- Whether the operation is an unpublished notification. -/
def EngineOp.isUnpublished : EngineOp → Bool
  | EngineOp.unpublished _ _ => true
  | _ => false

/-- Whether the operation is a joined notification. -/
def EngineOp.isJoined : EngineOp → Bool
  | EngineOp.joined _ => true
  | _ => false

/-- Dispatch one operation at the given model time. -/
def applyOp (env : Env) (cbs : Callbacks) (opts : Options) (op : EngineOp)
    (now : Nat) (st : EngineState) : EngineState :=
  match op with
  | EngineOp.joined u => handleUserJoined env cbs opts u now st
  | EngineOp.published u mt => handleUserPublished env cbs opts u mt now st
  | EngineOp.unpublished u mt => handleUserUnpublished u mt st
  | EngineOp.left u => handleUserLeft u st
  | EngineOp.subscribe uid mt => (subscribeToUser env cbs opts none none uid mt now st).snd
  | EngineOp.unsubscribe uid mt => (unsubscribeFromUser env cbs opts uid mt now st).snd

/-! ## Concrete fixtures used by the claim witnesses and counterexamples -/

/-- An environment whose subscribe calls always reject: empty remote list, no
bot users. -/
def envInert : Env :=
  { remoteUsers := []
    isBot := fun _ => false
    subscribeOutcome := fun _ _ _ => SubscribeOutcome.raised "unavailable"
    unsubscribeOutcome := fun _ _ _ => none }

/-- An environment whose subscribe calls always resolve with a truthy value. -/
def envAlwaysOk : Env :=
  { remoteUsers := []
    isBot := fun _ => false
    subscribeOutcome := fun _ _ _ => SubscribeOutcome.resolved true
    unsubscribeOutcome := fun _ _ _ => none }

/-- A participant with a numeric uid and no announced media. -/
def userNum123 : RemoteUser := { uid := UID.num 123, hasAudio := false, hasVideo := false }

/-- A participant "p" announcing audio. -/
def userP : RemoteUser := { uid := UID.str "p", hasAudio := true, hasVideo := false }

/-- The same participant "p" later reported with audio off and video on. -/
def userPV : RemoteUser := { uid := UID.str "p", hasAudio := false, hasVideo := true }

/-- A participant "q" with no media. -/
def userQ : RemoteUser := { uid := UID.str "q", hasAudio := false, hasVideo := false }

/-- Which availability flag of a user object gates the given media kind in
subscribeToUser. -/
def kindAvailable (mt : MediaType) (u : RemoteUser) : Bool :=
  match mt with
  | MediaType.audio => u.hasAudio
  | MediaType.video => u.hasVideo

/-- The subscribed flag of a record for the given media kind. -/
def kindSubscribed (mt : MediaType) (i : SubscriptionInfo) : Bool :=
  match mt with
  | MediaType.audio => i.audioSubscribed
  | MediaType.video => i.videoSubscribed

/-- The state enum of a record for the given media kind. -/
def kindState (mt : MediaType) (i : SubscriptionInfo) : Option SubscriptionState :=
  match mt with
  | MediaType.audio => i.audioState
  | MediaType.video => i.videoState

/-- The registry record produced by a joined notification for userQ at time 5. -/
def infoQ : SubscriptionInfo :=
  { user := some userQ, hasAudio := false, hasVideo := false,
    state := some SubscriptionState.not_subscribed,
    joinedAt := some 5, updatedAt := some 5 }

/-- The engine state after userQ joined at time 5 (no media, so no
subscription attempt fires). -/
def stQ : EngineState :=
  applyOp envInert noCallbacks defaultOptions (EngineOp.joined userQ) 5 {}

/-- A remote user "w" with audio, used by concrete witnesses. -/
def userW : RemoteUser := { uid := UID.str "w", hasAudio := true, hasVideo := false }

/-- A registry record for "w" holding userW, not yet subscribed. -/
def infoW : SubscriptionInfo := { user := some userW, hasAudio := true }

/-- An engine state holding just the record for "w". -/
def stW : EngineState := { subscriptions := [("w", infoW)] }

/-- An environment whose n-th subscribe call rejects with message toString n. -/
def envRaiseN : Env :=
  { remoteUsers := []
    isBot := fun _ => false
    subscribeOutcome := fun n _ _ => SubscribeOutcome.raised (toString n)
    unsubscribeOutcome := fun _ _ _ => none }

/-- An environment whose subscribe calls always resolve with a falsy value. -/
def envFalsy : Env :=
  { remoteUsers := []
    isBot := fun _ => false
    subscribeOutcome := fun _ _ _ => SubscribeOutcome.resolved false
    unsubscribeOutcome := fun _ _ _ => none }

/-- A history record used by concrete witnesses. -/
def r0 : HistoryRecord :=
  { uid := UID.str "h", mediaType := MediaType.audio, success := false,
    attempt := 1, timestamp := 0, errorMessage := some "x" }

/-- The lock-step redundancy invariant of one record: each subscribed flag
equals the test of the corresponding state enum being SUBSCRIBED. -/
def infoLockStep (i : SubscriptionInfo) : Prop :=
  i.audioSubscribed = decide (i.audioState = some SubscriptionState.subscribed) ∧
  i.videoSubscribed = decide (i.videoState = some SubscriptionState.subscribed)

/-- The lock-step invariant over every record of the registry. -/
def stateLockStep (st : EngineState) : Prop :=
  ∀ p ∈ st.subscriptions, infoLockStep p.snd

/-- Relation between two states: every record of the first that survives into
the second keeps its joinedAt timestamp (records may be deleted). -/
def joinedAtFrozen (st st2 : EngineState) : Prop :=
  ∀ (k : String) (i : SubscriptionInfo), regGet st.subscriptions k = some i →
    regGet st2.subscriptions k = none ∨
    ∃ i2, regGet st2.subscriptions k = some i2 ∧ i2.joinedAt = i.joinedAt

/-- Relation between two states: every record of the first is still present in
the second under the same key with the same joinedAt (no deletion, no
joinedAt change).  All engine operations except the joined handler and the
left handler relate their input and output states this way. -/
def joinedAtKept (st st2 : EngineState) : Prop :=
  ∀ (k : String) (i : SubscriptionInfo), regGet st.subscriptions k = some i →
    ∃ i2, regGet st2.subscriptions k = some i2 ∧ i2.joinedAt = i.joinedAt

/-- The engine state with the ghost callback-instrumentation fields reset:
two states with equal stripGhost agree on everything the JS engine itself
stores or does (registry, history, timers, timer ids, external call counts,
sleeps) and differ at most in which consumer callbacks ran or threw. -/
def stripGhost (st : EngineState) : EngineState :=
  { st with stateCbCalls := 0, successCbCalls := 0, failedCbCalls := 0, caughtErrors := [] }

/-- Proof abbreviation (not a source function): the engine state reached from
st by one updateSubscriptionState to SUBSCRIBING (when the record under the
uid is i) followed by the subscribe-call counter bump of
performSubscription.  Every iteration of the retry loop passes through this
state. -/
def attemptStateBump (cbs : Callbacks) (uid : UID) (mt : MediaType) (now : Nat)
    (i : SubscriptionInfo) (st : EngineState) : EngineState :=
  { invokeStateChanged cbs uid mt SubscriptionState.subscribing
      { st with subscriptions := regSet st.subscriptions (normalizeUID uid) (setKindState i mt SubscriptionState.subscribing now) } with
    subscribeCalls := st.subscribeCalls + 1 }

/-! ## Registry lemmas -/

theorem regGet_regSet_self (l : List (String × SubscriptionInfo)) (k : String)
    (v : SubscriptionInfo) : regGet (regSet l k v) k = some v := by
  induction l with
  | nil => simp [regGet, regSet]
  | cons p t ih =>
    by_cases hp : p.fst = k
    · simp [regGet, regSet, hp]
    · by_cases ht : t.any (fun q => q.fst == k)
      · simpa [regGet, regSet, hp, ht] using ih
      · simpa [regGet, regSet, hp, ht] using ih

theorem find?_replace_ne (l : List (String × SubscriptionInfo)) (k q : String)
    (v : SubscriptionInfo) (h : q ≠ k) :
    List.find? (fun p => p.fst == q) (l.map (fun p => if p.fst == k then (k, v) else p))
      = List.find? (fun p => p.fst == q) l := by
  have hfun : ((fun (p : String × SubscriptionInfo) => p.fst == q) ∘
      (fun p => if p.fst == k then (k, v) else p))
      = fun (p : String × SubscriptionInfo) => p.fst == q := by
    funext x
    by_cases hx : x.fst = k <;> simp [Function.comp, hx]
  rw [List.find?_map, hfun]
  cases hfind : List.find? (fun (p : String × SubscriptionInfo) => p.fst == q) l with
  | none => simp
  | some y =>
    have hy := List.find?_some hfind
    have hyq : y.fst = q := by simpa using hy
    have hyk : ¬ y.fst = k := by simpa [hyq] using h
    simp [hyk]

theorem find?_append_key_ne (l : List (String × SubscriptionInfo)) (k q : String)
    (v : SubscriptionInfo) (h : q ≠ k) :
    List.find? (fun p => p.fst == q) (l ++ [(k, v)])
      = List.find? (fun p => p.fst == q) l := by
  rw [List.find?_append]
  have hone : List.find? (fun (p : String × SubscriptionInfo) => p.fst == q) [(k, v)] = none := by
    simp [Ne.symm h]
  rw [hone, Option.or_none]

theorem regGet_regSet_ne (l : List (String × SubscriptionInfo)) (k q : String)
    (v : SubscriptionInfo) (h : q ≠ k) : regGet (regSet l k v) q = regGet l q := by
  unfold regGet regSet
  by_cases hl : l.any (fun p => p.fst == k) = true
  · rw [if_pos hl, find?_replace_ne l k q v h]
  · rw [if_neg hl, find?_append_key_ne l k q v h]

theorem map_replace_id (l : List (String × SubscriptionInfo)) (k : String)
    (w : SubscriptionInfo) (hl : l.any (fun p => p.fst == k) = false) :
    l.map (fun p => if p.fst == k then (k, w) else p) = l := by
  induction l with
  | nil => rfl
  | cons p t ih =>
    simp only [List.any_cons, Bool.or_eq_false_iff] at hl
    have hp : ¬ ((p.fst == k) = true) := by
      rw [hl.1]
      exact Bool.false_ne_true
    rw [List.map_cons, if_neg hp, ih hl.2]

theorem regSet_regSet (l : List (String × SubscriptionInfo)) (k : String)
    (v w : SubscriptionInfo) : regSet (regSet l k v) k w = regSet l k w := by
  by_cases hl : l.any (fun p => p.fst == k) = true
  · have hinner : regSet l k v = l.map (fun p => if p.fst == k then (k, v) else p) := by
      unfold regSet
      rw [if_pos hl]
    have houter : regSet l k w = l.map (fun p => if p.fst == k then (k, w) else p) := by
      unfold regSet
      rw [if_pos hl]
    have hmap : (l.map (fun p => if p.fst == k then (k, v) else p)).any
        (fun p => p.fst == k) = true := by
      rcases List.any_eq_true.mp hl with ⟨p, hpmem, hpk⟩
      refine List.any_eq_true.mpr ⟨(k, v), List.mem_map.mpr ⟨p, hpmem, ?_⟩, by simp⟩
      simp [hpk]
    have hsecond : regSet (regSet l k v) k w
        = (l.map (fun p => if p.fst == k then (k, v) else p)).map
            (fun p => if p.fst == k then (k, w) else p) := by
      rw [hinner]
      unfold regSet
      rw [if_pos hmap]
    rw [hsecond, houter, List.map_map]
    refine List.map_congr_left (fun p hp => ?_)
    by_cases hpk : p.fst = k <;> simp [Function.comp, hpk]
  · have hfalse : l.any (fun p => p.fst == k) = false := by
      cases h2 : l.any (fun p => p.fst == k) with
      | false => rfl
      | true => exact absurd h2 hl
    have hinner : regSet l k v = l ++ [(k, v)] := by
      unfold regSet
      rw [if_neg hl]
    have houter : regSet l k w = l ++ [(k, w)] := by
      unfold regSet
      rw [if_neg hl]
    have hmap : ((l ++ [(k, v)]).any (fun p => p.fst == k)) = true := by
      simp
    have hsecond : regSet (regSet l k v) k w
        = (l ++ [(k, v)]).map (fun p => if p.fst == k then (k, w) else p) := by
      rw [hinner]
      unfold regSet
      rw [if_pos hmap]
    rw [hsecond, houter, List.map_append, map_replace_id l k w hfalse]
    simp

@[simp] theorem setKindState_setKindState (i : SubscriptionInfo) (mt : MediaType)
    (s s2 : SubscriptionState) (n n2 : Nat) :
    setKindState (setKindState i mt s n) mt s2 n2 = setKindState i mt s2 n2 := by
  cases mt <;> rfl

@[simp] theorem kindState_setKindState (i : SubscriptionInfo) (mt : MediaType)
    (s : SubscriptionState) (n : Nat) :
    kindState mt (setKindState i mt s n) = some s := by
  cases mt <;> rfl

/-! ## Projection lemmas for the ghost-only combinators -/

theorem noteCallbackOutcome_subscriptions (r : Except String Unit) (st : EngineState) :
    (noteCallbackOutcome r st).subscriptions = st.subscriptions := by
  cases r <;> rfl

theorem noteCallbackOutcome_subscriptionHistory (r : Except String Unit) (st : EngineState) :
    (noteCallbackOutcome r st).subscriptionHistory = st.subscriptionHistory := by
  cases r <;> rfl

theorem noteCallbackOutcome_retryTimers (r : Except String Unit) (st : EngineState) :
    (noteCallbackOutcome r st).retryTimers = st.retryTimers := by
  cases r <;> rfl

theorem noteCallbackOutcome_nextTimerId (r : Except String Unit) (st : EngineState) :
    (noteCallbackOutcome r st).nextTimerId = st.nextTimerId := by
  cases r <;> rfl

theorem noteCallbackOutcome_subscribeCalls (r : Except String Unit) (st : EngineState) :
    (noteCallbackOutcome r st).subscribeCalls = st.subscribeCalls := by
  cases r <;> rfl

theorem noteCallbackOutcome_unsubscribeCalls (r : Except String Unit) (st : EngineState) :
    (noteCallbackOutcome r st).unsubscribeCalls = st.unsubscribeCalls := by
  cases r <;> rfl

theorem noteCallbackOutcome_sleeps (r : Except String Unit) (st : EngineState) :
    (noteCallbackOutcome r st).sleeps = st.sleeps := by
  cases r <;> rfl

theorem noteCallbackOutcome_failedCbCalls (r : Except String Unit) (st : EngineState) :
    (noteCallbackOutcome r st).failedCbCalls = st.failedCbCalls := by
  cases r <;> rfl

@[simp] theorem invokeStateChanged_subscriptions (cbs : Callbacks) (uid : UID)
    (mt : MediaType) (s : SubscriptionState) (st : EngineState) :
    (invokeStateChanged cbs uid mt s st).subscriptions = st.subscriptions := by
  unfold invokeStateChanged
  cases cbs.onSubscriptionStateChanged <;> simp [noteCallbackOutcome_subscriptions]

@[simp] theorem invokeStateChanged_subscriptionHistory (cbs : Callbacks) (uid : UID)
    (mt : MediaType) (s : SubscriptionState) (st : EngineState) :
    (invokeStateChanged cbs uid mt s st).subscriptionHistory = st.subscriptionHistory := by
  unfold invokeStateChanged
  cases cbs.onSubscriptionStateChanged <;> simp [noteCallbackOutcome_subscriptionHistory]

@[simp] theorem invokeStateChanged_retryTimers (cbs : Callbacks) (uid : UID)
    (mt : MediaType) (s : SubscriptionState) (st : EngineState) :
    (invokeStateChanged cbs uid mt s st).retryTimers = st.retryTimers := by
  unfold invokeStateChanged
  cases cbs.onSubscriptionStateChanged <;> simp [noteCallbackOutcome_retryTimers]

@[simp] theorem invokeStateChanged_nextTimerId (cbs : Callbacks) (uid : UID)
    (mt : MediaType) (s : SubscriptionState) (st : EngineState) :
    (invokeStateChanged cbs uid mt s st).nextTimerId = st.nextTimerId := by
  unfold invokeStateChanged
  cases cbs.onSubscriptionStateChanged <;> simp [noteCallbackOutcome_nextTimerId]

@[simp] theorem invokeStateChanged_subscribeCalls (cbs : Callbacks) (uid : UID)
    (mt : MediaType) (s : SubscriptionState) (st : EngineState) :
    (invokeStateChanged cbs uid mt s st).subscribeCalls = st.subscribeCalls := by
  unfold invokeStateChanged
  cases cbs.onSubscriptionStateChanged <;> simp [noteCallbackOutcome_subscribeCalls]

@[simp] theorem invokeStateChanged_unsubscribeCalls (cbs : Callbacks) (uid : UID)
    (mt : MediaType) (s : SubscriptionState) (st : EngineState) :
    (invokeStateChanged cbs uid mt s st).unsubscribeCalls = st.unsubscribeCalls := by
  unfold invokeStateChanged
  cases cbs.onSubscriptionStateChanged <;> simp [noteCallbackOutcome_unsubscribeCalls]

@[simp] theorem invokeStateChanged_sleeps (cbs : Callbacks) (uid : UID)
    (mt : MediaType) (s : SubscriptionState) (st : EngineState) :
    (invokeStateChanged cbs uid mt s st).sleeps = st.sleeps := by
  unfold invokeStateChanged
  cases cbs.onSubscriptionStateChanged <;> simp [noteCallbackOutcome_sleeps]

@[simp] theorem invokeStateChanged_failedCbCalls (cbs : Callbacks) (uid : UID)
    (mt : MediaType) (s : SubscriptionState) (st : EngineState) :
    (invokeStateChanged cbs uid mt s st).failedCbCalls = st.failedCbCalls := by
  unfold invokeStateChanged
  cases cbs.onSubscriptionStateChanged <;> simp [noteCallbackOutcome_failedCbCalls]

@[simp] theorem invokeSuccess_subscriptions (cbs : Callbacks) (uid : UID)
    (mt : MediaType) (result : Bool) (st : EngineState) :
    (invokeSuccess cbs uid mt result st).subscriptions = st.subscriptions := by
  unfold invokeSuccess
  cases cbs.onSubscriptionSuccess <;> simp [noteCallbackOutcome_subscriptions]

@[simp] theorem invokeSuccess_subscriptionHistory (cbs : Callbacks) (uid : UID)
    (mt : MediaType) (result : Bool) (st : EngineState) :
    (invokeSuccess cbs uid mt result st).subscriptionHistory = st.subscriptionHistory := by
  unfold invokeSuccess
  cases cbs.onSubscriptionSuccess <;> simp [noteCallbackOutcome_subscriptionHistory]

@[simp] theorem invokeSuccess_retryTimers (cbs : Callbacks) (uid : UID)
    (mt : MediaType) (result : Bool) (st : EngineState) :
    (invokeSuccess cbs uid mt result st).retryTimers = st.retryTimers := by
  unfold invokeSuccess
  cases cbs.onSubscriptionSuccess <;> simp [noteCallbackOutcome_retryTimers]

@[simp] theorem invokeSuccess_nextTimerId (cbs : Callbacks) (uid : UID)
    (mt : MediaType) (result : Bool) (st : EngineState) :
    (invokeSuccess cbs uid mt result st).nextTimerId = st.nextTimerId := by
  unfold invokeSuccess
  cases cbs.onSubscriptionSuccess <;> simp [noteCallbackOutcome_nextTimerId]

@[simp] theorem invokeSuccess_subscribeCalls (cbs : Callbacks) (uid : UID)
    (mt : MediaType) (result : Bool) (st : EngineState) :
    (invokeSuccess cbs uid mt result st).subscribeCalls = st.subscribeCalls := by
  unfold invokeSuccess
  cases cbs.onSubscriptionSuccess <;> simp [noteCallbackOutcome_subscribeCalls]

@[simp] theorem invokeSuccess_unsubscribeCalls (cbs : Callbacks) (uid : UID)
    (mt : MediaType) (result : Bool) (st : EngineState) :
    (invokeSuccess cbs uid mt result st).unsubscribeCalls = st.unsubscribeCalls := by
  unfold invokeSuccess
  cases cbs.onSubscriptionSuccess <;> simp [noteCallbackOutcome_unsubscribeCalls]

@[simp] theorem invokeSuccess_sleeps (cbs : Callbacks) (uid : UID)
    (mt : MediaType) (result : Bool) (st : EngineState) :
    (invokeSuccess cbs uid mt result st).sleeps = st.sleeps := by
  unfold invokeSuccess
  cases cbs.onSubscriptionSuccess <;> simp [noteCallbackOutcome_sleeps]

@[simp] theorem invokeSuccess_failedCbCalls (cbs : Callbacks) (uid : UID)
    (mt : MediaType) (result : Bool) (st : EngineState) :
    (invokeSuccess cbs uid mt result st).failedCbCalls = st.failedCbCalls := by
  unfold invokeSuccess
  cases cbs.onSubscriptionSuccess <;> simp [noteCallbackOutcome_failedCbCalls]

@[simp] theorem invokeFailed_subscriptions (cbs : Callbacks) (uid : UID)
    (mt : MediaType) (msg : String) (st : EngineState) :
    (invokeFailed cbs uid mt msg st).subscriptions = st.subscriptions := by
  unfold invokeFailed
  cases cbs.onSubscriptionFailed <;> simp [noteCallbackOutcome_subscriptions]

@[simp] theorem invokeFailed_subscriptionHistory (cbs : Callbacks) (uid : UID)
    (mt : MediaType) (msg : String) (st : EngineState) :
    (invokeFailed cbs uid mt msg st).subscriptionHistory = st.subscriptionHistory := by
  unfold invokeFailed
  cases cbs.onSubscriptionFailed <;> simp [noteCallbackOutcome_subscriptionHistory]

@[simp] theorem invokeFailed_retryTimers (cbs : Callbacks) (uid : UID)
    (mt : MediaType) (msg : String) (st : EngineState) :
    (invokeFailed cbs uid mt msg st).retryTimers = st.retryTimers := by
  unfold invokeFailed
  cases cbs.onSubscriptionFailed <;> simp [noteCallbackOutcome_retryTimers]

@[simp] theorem invokeFailed_nextTimerId (cbs : Callbacks) (uid : UID)
    (mt : MediaType) (msg : String) (st : EngineState) :
    (invokeFailed cbs uid mt msg st).nextTimerId = st.nextTimerId := by
  unfold invokeFailed
  cases cbs.onSubscriptionFailed <;> simp [noteCallbackOutcome_nextTimerId]

@[simp] theorem invokeFailed_subscribeCalls (cbs : Callbacks) (uid : UID)
    (mt : MediaType) (msg : String) (st : EngineState) :
    (invokeFailed cbs uid mt msg st).subscribeCalls = st.subscribeCalls := by
  unfold invokeFailed
  cases cbs.onSubscriptionFailed <;> simp [noteCallbackOutcome_subscribeCalls]

@[simp] theorem invokeFailed_unsubscribeCalls (cbs : Callbacks) (uid : UID)
    (mt : MediaType) (msg : String) (st : EngineState) :
    (invokeFailed cbs uid mt msg st).unsubscribeCalls = st.unsubscribeCalls := by
  unfold invokeFailed
  cases cbs.onSubscriptionFailed <;> simp [noteCallbackOutcome_unsubscribeCalls]

@[simp] theorem invokeFailed_sleeps (cbs : Callbacks) (uid : UID)
    (mt : MediaType) (msg : String) (st : EngineState) :
    (invokeFailed cbs uid mt msg st).sleeps = st.sleeps := by
  unfold invokeFailed
  cases cbs.onSubscriptionFailed <;> simp [noteCallbackOutcome_sleeps]

/-! ## Projection lemmas for updateSubscriptionState and the loop primitives -/

@[simp] theorem updateSubscriptionState_subscriptionHistory (cbs : Callbacks) (uid : UID)
    (mt : MediaType) (s : SubscriptionState) (now : Nat) (st : EngineState) :
    (updateSubscriptionState cbs uid mt s now st).subscriptionHistory
      = st.subscriptionHistory := by
  unfold updateSubscriptionState
  cases regGet st.subscriptions (normalizeUID uid) <;> simp

@[simp] theorem updateSubscriptionState_retryTimers (cbs : Callbacks) (uid : UID)
    (mt : MediaType) (s : SubscriptionState) (now : Nat) (st : EngineState) :
    (updateSubscriptionState cbs uid mt s now st).retryTimers = st.retryTimers := by
  unfold updateSubscriptionState
  cases regGet st.subscriptions (normalizeUID uid) <;> simp

@[simp] theorem updateSubscriptionState_nextTimerId (cbs : Callbacks) (uid : UID)
    (mt : MediaType) (s : SubscriptionState) (now : Nat) (st : EngineState) :
    (updateSubscriptionState cbs uid mt s now st).nextTimerId = st.nextTimerId := by
  unfold updateSubscriptionState
  cases regGet st.subscriptions (normalizeUID uid) <;> simp

@[simp] theorem updateSubscriptionState_subscribeCalls (cbs : Callbacks) (uid : UID)
    (mt : MediaType) (s : SubscriptionState) (now : Nat) (st : EngineState) :
    (updateSubscriptionState cbs uid mt s now st).subscribeCalls = st.subscribeCalls := by
  unfold updateSubscriptionState
  cases regGet st.subscriptions (normalizeUID uid) <;> simp

@[simp] theorem updateSubscriptionState_unsubscribeCalls (cbs : Callbacks) (uid : UID)
    (mt : MediaType) (s : SubscriptionState) (now : Nat) (st : EngineState) :
    (updateSubscriptionState cbs uid mt s now st).unsubscribeCalls = st.unsubscribeCalls := by
  unfold updateSubscriptionState
  cases regGet st.subscriptions (normalizeUID uid) <;> simp

@[simp] theorem updateSubscriptionState_sleeps (cbs : Callbacks) (uid : UID)
    (mt : MediaType) (s : SubscriptionState) (now : Nat) (st : EngineState) :
    (updateSubscriptionState cbs uid mt s now st).sleeps = st.sleeps := by
  unfold updateSubscriptionState
  cases regGet st.subscriptions (normalizeUID uid) <;> simp

theorem updateSubscriptionState_subscriptions_found (cbs : Callbacks) (uid : UID)
    (mt : MediaType) (s : SubscriptionState) (now : Nat) (st : EngineState)
    (i : SubscriptionInfo) (h : regGet st.subscriptions (normalizeUID uid) = some i) :
    (updateSubscriptionState cbs uid mt s now st).subscriptions
      = regSet st.subscriptions (normalizeUID uid) (setKindState i mt s now) := by
  unfold updateSubscriptionState
  rw [h]
  simp

theorem updateSubscriptionState_subscriptions_missing (cbs : Callbacks) (uid : UID)
    (mt : MediaType) (s : SubscriptionState) (now : Nat) (st : EngineState)
    (h : regGet st.subscriptions (normalizeUID uid) = none) :
    (updateSubscriptionState cbs uid mt s now st).subscriptions = st.subscriptions := by
  unfold updateSubscriptionState
  rw [h]

@[simp] theorem recordAttemptSt_subscriptions (uid : UID) (mt : MediaType) (success : Bool)
    (attempt : Nat) (msg : Option String) (now : Nat) (st : EngineState) :
    (recordAttemptSt uid mt success attempt msg now st).subscriptions = st.subscriptions := rfl

@[simp] theorem recordAttemptSt_retryTimers (uid : UID) (mt : MediaType) (success : Bool)
    (attempt : Nat) (msg : Option String) (now : Nat) (st : EngineState) :
    (recordAttemptSt uid mt success attempt msg now st).retryTimers = st.retryTimers := rfl

@[simp] theorem recordAttemptSt_nextTimerId (uid : UID) (mt : MediaType) (success : Bool)
    (attempt : Nat) (msg : Option String) (now : Nat) (st : EngineState) :
    (recordAttemptSt uid mt success attempt msg now st).nextTimerId = st.nextTimerId := rfl

@[simp] theorem recordAttemptSt_subscribeCalls (uid : UID) (mt : MediaType) (success : Bool)
    (attempt : Nat) (msg : Option String) (now : Nat) (st : EngineState) :
    (recordAttemptSt uid mt success attempt msg now st).subscribeCalls = st.subscribeCalls := rfl

@[simp] theorem recordAttemptSt_unsubscribeCalls (uid : UID) (mt : MediaType) (success : Bool)
    (attempt : Nat) (msg : Option String) (now : Nat) (st : EngineState) :
    (recordAttemptSt uid mt success attempt msg now st).unsubscribeCalls
      = st.unsubscribeCalls := rfl

@[simp] theorem recordAttemptSt_sleeps (uid : UID) (mt : MediaType) (success : Bool)
    (attempt : Nat) (msg : Option String) (now : Nat) (st : EngineState) :
    (recordAttemptSt uid mt success attempt msg now st).sleeps = st.sleeps := rfl

@[simp] theorem recordAttemptSt_subscriptionHistory (uid : UID) (mt : MediaType)
    (success : Bool) (attempt : Nat) (msg : Option String) (now : Nat) (st : EngineState) :
    (recordAttemptSt uid mt success attempt msg now st).subscriptionHistory
      = recordSubscriptionAttempt uid mt success attempt msg now st.subscriptionHistory := rfl

@[simp] theorem sleepSt_subscriptions (ms : Nat) (st : EngineState) :
    (sleepSt ms st).subscriptions = st.subscriptions := rfl

@[simp] theorem sleepSt_subscriptionHistory (ms : Nat) (st : EngineState) :
    (sleepSt ms st).subscriptionHistory = st.subscriptionHistory := rfl

@[simp] theorem sleepSt_retryTimers (ms : Nat) (st : EngineState) :
    (sleepSt ms st).retryTimers = st.retryTimers := rfl

@[simp] theorem sleepSt_nextTimerId (ms : Nat) (st : EngineState) :
    (sleepSt ms st).nextTimerId = st.nextTimerId := rfl

@[simp] theorem sleepSt_subscribeCalls (ms : Nat) (st : EngineState) :
    (sleepSt ms st).subscribeCalls = st.subscribeCalls := rfl

@[simp] theorem sleepSt_unsubscribeCalls (ms : Nat) (st : EngineState) :
    (sleepSt ms st).unsubscribeCalls = st.unsubscribeCalls := rfl

@[simp] theorem sleepSt_sleeps (ms : Nat) (st : EngineState) :
    (sleepSt ms st).sleeps = st.sleeps ++ [ms] := rfl

@[simp] theorem attemptStateBump_subscriptions (cbs : Callbacks) (uid : UID) (mt : MediaType)
    (now : Nat) (i : SubscriptionInfo) (st : EngineState) :
    (attemptStateBump cbs uid mt now i st).subscriptions
      = regSet st.subscriptions (normalizeUID uid)
          (setKindState i mt SubscriptionState.subscribing now) := by
  simp [attemptStateBump]

@[simp] theorem attemptStateBump_subscriptionHistory (cbs : Callbacks) (uid : UID)
    (mt : MediaType) (now : Nat) (i : SubscriptionInfo) (st : EngineState) :
    (attemptStateBump cbs uid mt now i st).subscriptionHistory = st.subscriptionHistory := by
  simp [attemptStateBump]

@[simp] theorem attemptStateBump_sleeps (cbs : Callbacks) (uid : UID) (mt : MediaType)
    (now : Nat) (i : SubscriptionInfo) (st : EngineState) :
    (attemptStateBump cbs uid mt now i st).sleeps = st.sleeps := by
  simp [attemptStateBump]

@[simp] theorem attemptStateBump_subscribeCalls (cbs : Callbacks) (uid : UID) (mt : MediaType)
    (now : Nat) (i : SubscriptionInfo) (st : EngineState) :
    (attemptStateBump cbs uid mt now i st).subscribeCalls = st.subscribeCalls + 1 := by
  simp [attemptStateBump]

@[simp] theorem attemptStateBump_retryTimers (cbs : Callbacks) (uid : UID) (mt : MediaType)
    (now : Nat) (i : SubscriptionInfo) (st : EngineState) :
    (attemptStateBump cbs uid mt now i st).retryTimers = st.retryTimers := by
  simp [attemptStateBump]

@[simp] theorem attemptStateBump_nextTimerId (cbs : Callbacks) (uid : UID) (mt : MediaType)
    (now : Nat) (i : SubscriptionInfo) (st : EngineState) :
    (attemptStateBump cbs uid mt now i st).nextTimerId = st.nextTimerId := by
  simp [attemptStateBump]

@[simp] theorem attemptStateBump_unsubscribeCalls (cbs : Callbacks) (uid : UID)
    (mt : MediaType) (now : Nat) (i : SubscriptionInfo) (st : EngineState) :
    (attemptStateBump cbs uid mt now i st).unsubscribeCalls = st.unsubscribeCalls := by
  simp [attemptStateBump]

@[simp] theorem attemptStateBump_failedCbCalls (cbs : Callbacks) (uid : UID)
    (mt : MediaType) (now : Nat) (i : SubscriptionInfo) (st : EngineState) :
    (attemptStateBump cbs uid mt now i st).failedCbCalls = st.failedCbCalls := by
  simp [attemptStateBump, invokeStateChanged_failedCbCalls]

theorem subscribeWithRetryLoop_fuel_zero (env : Env) (cbs : Callbacks)
    (maxAttempts retryDelay : Nat) (uid : UID) (user : RemoteUser) (mt : MediaType)
    (now attempt : Nat) (st : EngineState) :
    subscribeWithRetryLoop env cbs maxAttempts retryDelay uid user mt now attempt 0 st
      = (false, st) := rfl

theorem updateSubscriptionState_found_eq (cbs : Callbacks) (uid : UID) (mt : MediaType)
    (s : SubscriptionState) (now : Nat) (st : EngineState) (i : SubscriptionInfo)
    (h : regGet st.subscriptions (normalizeUID uid) = some i) :
    updateSubscriptionState cbs uid mt s now st
      = invokeStateChanged cbs uid mt s
          { st with subscriptions :=
              regSet st.subscriptions (normalizeUID uid) (setKindState i mt s now) } := by
  unfold updateSubscriptionState
  rw [h]

/-! ## Step lemmas unrolling one iteration of the retry loop -/

theorem subscribeWithRetryLoop_raised_step (env : Env) (cbs : Callbacks)
    (maxAttempts retryDelay : Nat) (uid : UID) (user : RemoteUser) (mt : MediaType)
    (now attempt fuel : Nat) (st : EngineState) (i : SubscriptionInfo) (m : String)
    (hreg : regGet st.subscriptions (normalizeUID uid) = some i)
    (hout : env.subscribeOutcome st.subscribeCalls user mt = SubscribeOutcome.raised m)
    (hlt : attempt < maxAttempts) :
    subscribeWithRetryLoop env cbs maxAttempts retryDelay uid user mt now attempt (fuel + 1) st
      = subscribeWithRetryLoop env cbs maxAttempts retryDelay uid user mt now (attempt + 1) fuel
          (sleepSt (retryDelay * attempt)
            (recordAttemptSt uid mt false attempt (some m) now
              (attemptStateBump cbs uid mt now i st))) := by
  have heq := updateSubscriptionState_found_eq cbs uid mt SubscriptionState.subscribing now st i hreg
  simp only [subscribeWithRetryLoop, performSubscription, heq, attemptStateBump,
    invokeStateChanged_subscribeCalls, hout, hlt, if_true]

theorem subscribeWithRetryLoop_raised_last (env : Env) (cbs : Callbacks)
    (maxAttempts retryDelay : Nat) (uid : UID) (user : RemoteUser) (mt : MediaType)
    (now attempt fuel : Nat) (st : EngineState) (i : SubscriptionInfo) (m : String)
    (hreg : regGet st.subscriptions (normalizeUID uid) = some i)
    (hout : env.subscribeOutcome st.subscribeCalls user mt = SubscribeOutcome.raised m)
    (hge : ¬ attempt < maxAttempts) :
    subscribeWithRetryLoop env cbs maxAttempts retryDelay uid user mt now attempt (fuel + 1) st
      = (false,
         invokeFailed cbs uid mt m
           (updateSubscriptionState cbs uid mt SubscriptionState.subscription_failed now
             (recordAttemptSt uid mt false attempt (some m) now
               (attemptStateBump cbs uid mt now i st)))) := by
  have heq := updateSubscriptionState_found_eq cbs uid mt SubscriptionState.subscribing now st i hreg
  simp only [subscribeWithRetryLoop, performSubscription, heq, attemptStateBump,
    invokeStateChanged_subscribeCalls, hout, hge, if_false]

theorem subscribeWithRetryLoop_success_step (env : Env) (cbs : Callbacks)
    (maxAttempts retryDelay : Nat) (uid : UID) (user : RemoteUser) (mt : MediaType)
    (now attempt fuel : Nat) (st : EngineState) (i : SubscriptionInfo)
    (hreg : regGet st.subscriptions (normalizeUID uid) = some i)
    (hout : env.subscribeOutcome st.subscribeCalls user mt = SubscribeOutcome.resolved true) :
    subscribeWithRetryLoop env cbs maxAttempts retryDelay uid user mt now attempt (fuel + 1) st
      = (true,
         invokeSuccess cbs uid mt true
           (recordAttemptSt uid mt true attempt none now
             (updateSubscriptionState cbs uid mt SubscriptionState.subscribed now
               (attemptStateBump cbs uid mt now i st)))) := by
  have heq := updateSubscriptionState_found_eq cbs uid mt SubscriptionState.subscribing now st i hreg
  simp only [subscribeWithRetryLoop, performSubscription, heq, attemptStateBump,
    invokeStateChanged_subscribeCalls, hout]

theorem subscribeWithRetryLoop_falsy_step (env : Env) (cbs : Callbacks)
    (maxAttempts retryDelay : Nat) (uid : UID) (user : RemoteUser) (mt : MediaType)
    (now attempt fuel : Nat) (st : EngineState) (i : SubscriptionInfo)
    (hreg : regGet st.subscriptions (normalizeUID uid) = some i)
    (hout : env.subscribeOutcome st.subscribeCalls user mt = SubscribeOutcome.resolved false) :
    subscribeWithRetryLoop env cbs maxAttempts retryDelay uid user mt now attempt (fuel + 1) st
      = subscribeWithRetryLoop env cbs maxAttempts retryDelay uid user mt now (attempt + 1) fuel
          (attemptStateBump cbs uid mt now i st) := by
  have heq := updateSubscriptionState_found_eq cbs uid mt SubscriptionState.subscribing now st i hreg
  simp only [subscribeWithRetryLoop, performSubscription, heq, attemptStateBump,
    invokeStateChanged_subscribeCalls, hout]

/-! ## Characterization of subscribeWithRetry under default options -/

theorem subscribeWithRetry_default_eq_loop (env : Env) (cbs : Callbacks) (uid : UID)
    (user : RemoteUser) (mt : MediaType) (now : Nat) (st : EngineState) :
    subscribeWithRetry env cbs defaultOptions none none uid user mt now st
      = subscribeWithRetryLoop env cbs 3 2000 uid user mt now 1 3 st := rfl

theorem retryDefaultAllFail (env : Env) (cbs : Callbacks) (uid : UID) (user : RemoteUser)
    (mt : MediaType) (now : Nat) (st : EngineState) (i : SubscriptionInfo)
    (m1 m2 m3 : String)
    (hreg : regGet st.subscriptions (normalizeUID uid) = some i)
    (hlen : st.subscriptionHistory.length ≤ 97)
    (h1 : env.subscribeOutcome st.subscribeCalls user mt = SubscribeOutcome.raised m1)
    (h2 : env.subscribeOutcome (st.subscribeCalls + 1) user mt = SubscribeOutcome.raised m2)
    (h3 : env.subscribeOutcome (st.subscribeCalls + 2) user mt = SubscribeOutcome.raised m3) :
    (subscribeWithRetry env cbs defaultOptions none none uid user mt now st).fst = false ∧
    (subscribeWithRetry env cbs defaultOptions none none uid user mt now st).snd.sleeps
      = st.sleeps ++ [2000, 4000] ∧
    (subscribeWithRetry env cbs defaultOptions none none uid user mt now st).snd.subscriptionHistory
      = st.subscriptionHistory ++
        [{ uid := uid, mediaType := mt, success := false, attempt := 1,
           timestamp := now, errorMessage := some m1 },
         { uid := uid, mediaType := mt, success := false, attempt := 2,
           timestamp := now, errorMessage := some m2 },
         { uid := uid, mediaType := mt, success := false, attempt := 3,
           timestamp := now, errorMessage := some m3 }] ∧
    (regGet (subscribeWithRetry env cbs defaultOptions none none uid user mt
        now st).snd.subscriptions (normalizeUID uid)).map (kindState mt)
      = some (some SubscriptionState.subscription_failed) := by
  have e1 := subscribeWithRetryLoop_raised_step env cbs 3 2000 uid user mt now 1 2 st i m1
    hreg h1 (by norm_num)
  norm_num at e1
  have hr1 : regGet (sleepSt 2000 (recordAttemptSt uid mt false 1 (some m1) now
      (attemptStateBump cbs uid mt now i st))).subscriptions (normalizeUID uid)
      = some (setKindState i mt SubscriptionState.subscribing now) := by
    simp [regGet_regSet_self]
  have hc1 : (sleepSt 2000 (recordAttemptSt uid mt false 1 (some m1) now
      (attemptStateBump cbs uid mt now i st))).subscribeCalls = st.subscribeCalls + 1 := by
    simp
  have e2 := subscribeWithRetryLoop_raised_step env cbs 3 2000 uid user mt now 2 1
    (sleepSt 2000 (recordAttemptSt uid mt false 1 (some m1) now
      (attemptStateBump cbs uid mt now i st)))
    (setKindState i mt SubscriptionState.subscribing now) m2 hr1
    (by rw [hc1]; exact h2) (by norm_num)
  norm_num at e2
  have hr2 : regGet (sleepSt 4000 (recordAttemptSt uid mt false 2 (some m2) now
      (attemptStateBump cbs uid mt now (setKindState i mt SubscriptionState.subscribing now)
        (sleepSt 2000 (recordAttemptSt uid mt false 1 (some m1) now
          (attemptStateBump cbs uid mt now i st)))))).subscriptions (normalizeUID uid)
      = some (setKindState i mt SubscriptionState.subscribing now) := by
    simp [regGet_regSet_self, regSet_regSet]
  have hc2 : (sleepSt 4000 (recordAttemptSt uid mt false 2 (some m2) now
      (attemptStateBump cbs uid mt now (setKindState i mt SubscriptionState.subscribing now)
        (sleepSt 2000 (recordAttemptSt uid mt false 1 (some m1) now
          (attemptStateBump cbs uid mt now i st)))))).subscribeCalls
      = st.subscribeCalls + 2 := by
    simp
  have e3 := subscribeWithRetryLoop_raised_last env cbs 3 2000 uid user mt now 3 0
    (sleepSt 4000 (recordAttemptSt uid mt false 2 (some m2) now
      (attemptStateBump cbs uid mt now (setKindState i mt SubscriptionState.subscribing now)
        (sleepSt 2000 (recordAttemptSt uid mt false 1 (some m1) now
          (attemptStateBump cbs uid mt now i st))))))
    (setKindState i mt SubscriptionState.subscribing now) m3 hr2
    (by rw [hc2]; exact h3) (by norm_num)
  norm_num at e3
  have hh1 : recordSubscriptionAttempt uid mt false 1 (some m1) now st.subscriptionHistory
      = st.subscriptionHistory ++
        [({ uid := uid, mediaType := mt, success := false, attempt := 1,
            timestamp := now, errorMessage := some m1 } : HistoryRecord)] := by
    unfold recordSubscriptionAttempt
    rw [if_neg (by simp; omega)]
  have hh2 : recordSubscriptionAttempt uid mt false 2 (some m2) now
      (st.subscriptionHistory ++
        [({ uid := uid, mediaType := mt, success := false, attempt := 1,
            timestamp := now, errorMessage := some m1 } : HistoryRecord)])
      = st.subscriptionHistory ++
        [({ uid := uid, mediaType := mt, success := false, attempt := 1,
            timestamp := now, errorMessage := some m1 } : HistoryRecord),
         ({ uid := uid, mediaType := mt, success := false, attempt := 2,
            timestamp := now, errorMessage := some m2 } : HistoryRecord)] := by
    unfold recordSubscriptionAttempt
    rw [if_neg (by simp; omega)]
    simp
  have hh3 : recordSubscriptionAttempt uid mt false 3 (some m3) now
      (st.subscriptionHistory ++
        [({ uid := uid, mediaType := mt, success := false, attempt := 1,
            timestamp := now, errorMessage := some m1 } : HistoryRecord),
         ({ uid := uid, mediaType := mt, success := false, attempt := 2,
            timestamp := now, errorMessage := some m2 } : HistoryRecord)])
      = st.subscriptionHistory ++
        [({ uid := uid, mediaType := mt, success := false, attempt := 1,
            timestamp := now, errorMessage := some m1 } : HistoryRecord),
         ({ uid := uid, mediaType := mt, success := false, attempt := 2,
            timestamp := now, errorMessage := some m2 } : HistoryRecord),
         ({ uid := uid, mediaType := mt, success := false, attempt := 3,
            timestamp := now, errorMessage := some m3 } : HistoryRecord)] := by
    unfold recordSubscriptionAttempt
    rw [if_neg (by simp; omega)]
    simp
  have hfound : regGet (recordAttemptSt uid mt false 3 (some m3) now
      (attemptStateBump cbs uid mt now (setKindState i mt SubscriptionState.subscribing now)
        (sleepSt 4000 (recordAttemptSt uid mt false 2 (some m2) now
          (attemptStateBump cbs uid mt now (setKindState i mt SubscriptionState.subscribing now)
            (sleepSt 2000 (recordAttemptSt uid mt false 1 (some m1) now
              (attemptStateBump cbs uid mt now i st)))))))).subscriptions (normalizeUID uid)
      = some (setKindState i mt SubscriptionState.subscribing now) := by
    simp [regGet_regSet_self, regSet_regSet]
  refine ⟨?_, ?_, ?_, ?_⟩
  · rw [subscribeWithRetry_default_eq_loop, e1, e2, e3]
  · rw [subscribeWithRetry_default_eq_loop, e1, e2, e3]
    simp
  · rw [subscribeWithRetry_default_eq_loop, e1, e2, e3]
    simp [hh1, hh2, hh3]
  · rw [subscribeWithRetry_default_eq_loop, e1, e2, e3]
    simp [updateSubscriptionState_subscriptions_found cbs uid mt
      SubscriptionState.subscription_failed now _ _ hfound,
      regGet_regSet_self, regSet_regSet]

theorem retryDefaultSuccessAt1 (env : Env) (cbs : Callbacks) (uid : UID) (user : RemoteUser)
    (mt : MediaType) (now : Nat) (st : EngineState) (i : SubscriptionInfo)
    (hreg : regGet st.subscriptions (normalizeUID uid) = some i)
    (hlen : st.subscriptionHistory.length ≤ 99)
    (h1 : env.subscribeOutcome st.subscribeCalls user mt = SubscribeOutcome.resolved true) :
    (subscribeWithRetry env cbs defaultOptions none none uid user mt now st).fst = true ∧
    (subscribeWithRetry env cbs defaultOptions none none uid user mt now st).snd.sleeps
      = st.sleeps ∧
    (subscribeWithRetry env cbs defaultOptions none none uid user mt now st).snd.subscriptionHistory
      = st.subscriptionHistory ++
        [({ uid := uid, mediaType := mt, success := true, attempt := 1,
            timestamp := now, errorMessage := none } : HistoryRecord)] ∧
    (regGet (subscribeWithRetry env cbs defaultOptions none none uid user mt
        now st).snd.subscriptions (normalizeUID uid)).map (kindState mt)
      = some (some SubscriptionState.subscribed) := by
  have e1 := subscribeWithRetryLoop_success_step env cbs 3 2000 uid user mt now 1 2 st i hreg h1
  norm_num at e1
  have hfound1 : regGet (attemptStateBump cbs uid mt now i st).subscriptions (normalizeUID uid)
      = some (setKindState i mt SubscriptionState.subscribing now) := by
    simp [regGet_regSet_self]
  refine ⟨?_, ?_, ?_, ?_⟩
  · rw [subscribeWithRetry_default_eq_loop, e1]
  · rw [subscribeWithRetry_default_eq_loop, e1]
    simp
  · rw [subscribeWithRetry_default_eq_loop, e1]
    have hh1 : recordSubscriptionAttempt uid mt true 1 none now st.subscriptionHistory
        = st.subscriptionHistory ++
          [({ uid := uid, mediaType := mt, success := true, attempt := 1,
              timestamp := now, errorMessage := none } : HistoryRecord)] := by
      unfold recordSubscriptionAttempt
      rw [if_neg (by simp; omega)]
    simp [hh1]
  · rw [subscribeWithRetry_default_eq_loop, e1]
    simp [updateSubscriptionState_subscriptions_found cbs uid mt
      SubscriptionState.subscribed now _ _ hfound1, regGet_regSet_self, regSet_regSet]

theorem retryDefaultSuccessAt2 (env : Env) (cbs : Callbacks) (uid : UID) (user : RemoteUser)
    (mt : MediaType) (now : Nat) (st : EngineState) (i : SubscriptionInfo) (m1 : String)
    (hreg : regGet st.subscriptions (normalizeUID uid) = some i)
    (hlen : st.subscriptionHistory.length ≤ 98)
    (h1 : env.subscribeOutcome st.subscribeCalls user mt = SubscribeOutcome.raised m1)
    (h2 : env.subscribeOutcome (st.subscribeCalls + 1) user mt = SubscribeOutcome.resolved true) :
    (subscribeWithRetry env cbs defaultOptions none none uid user mt now st).fst = true ∧
    (subscribeWithRetry env cbs defaultOptions none none uid user mt now st).snd.sleeps
      = st.sleeps ++ [2000] ∧
    (subscribeWithRetry env cbs defaultOptions none none uid user mt now st).snd.subscriptionHistory
      = st.subscriptionHistory ++
        [({ uid := uid, mediaType := mt, success := false, attempt := 1,
            timestamp := now, errorMessage := some m1 } : HistoryRecord),
         ({ uid := uid, mediaType := mt, success := true, attempt := 2,
            timestamp := now, errorMessage := none } : HistoryRecord)] ∧
    (regGet (subscribeWithRetry env cbs defaultOptions none none uid user mt
        now st).snd.subscriptions (normalizeUID uid)).map (kindState mt)
      = some (some SubscriptionState.subscribed) := by
  have e1 := subscribeWithRetryLoop_raised_step env cbs 3 2000 uid user mt now 1 2 st i m1
    hreg h1 (by norm_num)
  norm_num at e1
  have hr1 : regGet (sleepSt 2000 (recordAttemptSt uid mt false 1 (some m1) now
      (attemptStateBump cbs uid mt now i st))).subscriptions (normalizeUID uid)
      = some (setKindState i mt SubscriptionState.subscribing now) := by
    simp [regGet_regSet_self]
  have hc1 : (sleepSt 2000 (recordAttemptSt uid mt false 1 (some m1) now
      (attemptStateBump cbs uid mt now i st))).subscribeCalls = st.subscribeCalls + 1 := by
    simp
  have e2 := subscribeWithRetryLoop_success_step env cbs 3 2000 uid user mt now 2 1
    (sleepSt 2000 (recordAttemptSt uid mt false 1 (some m1) now
      (attemptStateBump cbs uid mt now i st)))
    (setKindState i mt SubscriptionState.subscribing now) hr1
    (by rw [hc1]; exact h2)
  norm_num at e2
  have hfound2 : regGet (attemptStateBump cbs uid mt now
      (setKindState i mt SubscriptionState.subscribing now)
      (sleepSt 2000 (recordAttemptSt uid mt false 1 (some m1) now
        (attemptStateBump cbs uid mt now i st)))).subscriptions (normalizeUID uid)
      = some (setKindState i mt SubscriptionState.subscribing now) := by
    simp [regGet_regSet_self, regSet_regSet]
  have hh1 : recordSubscriptionAttempt uid mt false 1 (some m1) now st.subscriptionHistory
      = st.subscriptionHistory ++
        [({ uid := uid, mediaType := mt, success := false, attempt := 1,
            timestamp := now, errorMessage := some m1 } : HistoryRecord)] := by
    unfold recordSubscriptionAttempt
    rw [if_neg (by simp; omega)]
  have hh2 : recordSubscriptionAttempt uid mt true 2 none now
      (st.subscriptionHistory ++
        [({ uid := uid, mediaType := mt, success := false, attempt := 1,
            timestamp := now, errorMessage := some m1 } : HistoryRecord)])
      = st.subscriptionHistory ++
        [({ uid := uid, mediaType := mt, success := false, attempt := 1,
            timestamp := now, errorMessage := some m1 } : HistoryRecord),
         ({ uid := uid, mediaType := mt, success := true, attempt := 2,
            timestamp := now, errorMessage := none } : HistoryRecord)] := by
    unfold recordSubscriptionAttempt
    rw [if_neg (by simp; omega)]
    simp
  refine ⟨?_, ?_, ?_, ?_⟩
  · rw [subscribeWithRetry_default_eq_loop, e1, e2]
  · rw [subscribeWithRetry_default_eq_loop, e1, e2]
    simp
  · rw [subscribeWithRetry_default_eq_loop, e1, e2]
    simp [hh1, hh2]
  · rw [subscribeWithRetry_default_eq_loop, e1, e2]
    simp [updateSubscriptionState_subscriptions_found cbs uid mt
      SubscriptionState.subscribed now _ _ hfound2, regGet_regSet_self, regSet_regSet]

theorem retryDefaultSuccessAt3 (env : Env) (cbs : Callbacks) (uid : UID) (user : RemoteUser)
    (mt : MediaType) (now : Nat) (st : EngineState) (i : SubscriptionInfo) (m1 m2 : String)
    (hreg : regGet st.subscriptions (normalizeUID uid) = some i)
    (hlen : st.subscriptionHistory.length ≤ 97)
    (h1 : env.subscribeOutcome st.subscribeCalls user mt = SubscribeOutcome.raised m1)
    (h2 : env.subscribeOutcome (st.subscribeCalls + 1) user mt = SubscribeOutcome.raised m2)
    (h3 : env.subscribeOutcome (st.subscribeCalls + 2) user mt = SubscribeOutcome.resolved true) :
    (subscribeWithRetry env cbs defaultOptions none none uid user mt now st).fst = true ∧
    (subscribeWithRetry env cbs defaultOptions none none uid user mt now st).snd.sleeps
      = st.sleeps ++ [2000, 4000] ∧
    (subscribeWithRetry env cbs defaultOptions none none uid user mt now st).snd.subscriptionHistory
      = st.subscriptionHistory ++
        [({ uid := uid, mediaType := mt, success := false, attempt := 1,
            timestamp := now, errorMessage := some m1 } : HistoryRecord),
         ({ uid := uid, mediaType := mt, success := false, attempt := 2,
            timestamp := now, errorMessage := some m2 } : HistoryRecord),
         ({ uid := uid, mediaType := mt, success := true, attempt := 3,
            timestamp := now, errorMessage := none } : HistoryRecord)] ∧
    (regGet (subscribeWithRetry env cbs defaultOptions none none uid user mt
        now st).snd.subscriptions (normalizeUID uid)).map (kindState mt)
      = some (some SubscriptionState.subscribed) := by
  have e1 := subscribeWithRetryLoop_raised_step env cbs 3 2000 uid user mt now 1 2 st i m1
    hreg h1 (by norm_num)
  norm_num at e1
  have hr1 : regGet (sleepSt 2000 (recordAttemptSt uid mt false 1 (some m1) now
      (attemptStateBump cbs uid mt now i st))).subscriptions (normalizeUID uid)
      = some (setKindState i mt SubscriptionState.subscribing now) := by
    simp [regGet_regSet_self]
  have hc1 : (sleepSt 2000 (recordAttemptSt uid mt false 1 (some m1) now
      (attemptStateBump cbs uid mt now i st))).subscribeCalls = st.subscribeCalls + 1 := by
    simp
  have e2 := subscribeWithRetryLoop_raised_step env cbs 3 2000 uid user mt now 2 1
    (sleepSt 2000 (recordAttemptSt uid mt false 1 (some m1) now
      (attemptStateBump cbs uid mt now i st)))
    (setKindState i mt SubscriptionState.subscribing now) m2 hr1
    (by rw [hc1]; exact h2) (by norm_num)
  norm_num at e2
  have hr2 : regGet (sleepSt 4000 (recordAttemptSt uid mt false 2 (some m2) now
      (attemptStateBump cbs uid mt now (setKindState i mt SubscriptionState.subscribing now)
        (sleepSt 2000 (recordAttemptSt uid mt false 1 (some m1) now
          (attemptStateBump cbs uid mt now i st)))))).subscriptions (normalizeUID uid)
      = some (setKindState i mt SubscriptionState.subscribing now) := by
    simp [regGet_regSet_self, regSet_regSet]
  have hc2 : (sleepSt 4000 (recordAttemptSt uid mt false 2 (some m2) now
      (attemptStateBump cbs uid mt now (setKindState i mt SubscriptionState.subscribing now)
        (sleepSt 2000 (recordAttemptSt uid mt false 1 (some m1) now
          (attemptStateBump cbs uid mt now i st)))))).subscribeCalls
      = st.subscribeCalls + 2 := by
    simp
  have e3 := subscribeWithRetryLoop_success_step env cbs 3 2000 uid user mt now 3 0
    (sleepSt 4000 (recordAttemptSt uid mt false 2 (some m2) now
      (attemptStateBump cbs uid mt now (setKindState i mt SubscriptionState.subscribing now)
        (sleepSt 2000 (recordAttemptSt uid mt false 1 (some m1) now
          (attemptStateBump cbs uid mt now i st))))))
    (setKindState i mt SubscriptionState.subscribing now) hr2
    (by rw [hc2]; exact h3)
  norm_num at e3
  have hfound3 : regGet (attemptStateBump cbs uid mt now
      (setKindState i mt SubscriptionState.subscribing now)
      (sleepSt 4000 (recordAttemptSt uid mt false 2 (some m2) now
        (attemptStateBump cbs uid mt now (setKindState i mt SubscriptionState.subscribing now)
          (sleepSt 2000 (recordAttemptSt uid mt false 1 (some m1) now
            (attemptStateBump cbs uid mt now i st))))))).subscriptions (normalizeUID uid)
      = some (setKindState i mt SubscriptionState.subscribing now) := by
    simp [regGet_regSet_self, regSet_regSet]
  have hh1 : recordSubscriptionAttempt uid mt false 1 (some m1) now st.subscriptionHistory
      = st.subscriptionHistory ++
        [({ uid := uid, mediaType := mt, success := false, attempt := 1,
            timestamp := now, errorMessage := some m1 } : HistoryRecord)] := by
    unfold recordSubscriptionAttempt
    rw [if_neg (by simp; omega)]
  have hh2 : recordSubscriptionAttempt uid mt false 2 (some m2) now
      (st.subscriptionHistory ++
        [({ uid := uid, mediaType := mt, success := false, attempt := 1,
            timestamp := now, errorMessage := some m1 } : HistoryRecord)])
      = st.subscriptionHistory ++
        [({ uid := uid, mediaType := mt, success := false, attempt := 1,
            timestamp := now, errorMessage := some m1 } : HistoryRecord),
         ({ uid := uid, mediaType := mt, success := false, attempt := 2,
            timestamp := now, errorMessage := some m2 } : HistoryRecord)] := by
    unfold recordSubscriptionAttempt
    rw [if_neg (by simp; omega)]
    simp
  have hh3 : recordSubscriptionAttempt uid mt true 3 none now
      (st.subscriptionHistory ++
        [({ uid := uid, mediaType := mt, success := false, attempt := 1,
            timestamp := now, errorMessage := some m1 } : HistoryRecord),
         ({ uid := uid, mediaType := mt, success := false, attempt := 2,
            timestamp := now, errorMessage := some m2 } : HistoryRecord)])
      = st.subscriptionHistory ++
        [({ uid := uid, mediaType := mt, success := false, attempt := 1,
            timestamp := now, errorMessage := some m1 } : HistoryRecord),
         ({ uid := uid, mediaType := mt, success := false, attempt := 2,
            timestamp := now, errorMessage := some m2 } : HistoryRecord),
         ({ uid := uid, mediaType := mt, success := true, attempt := 3,
            timestamp := now, errorMessage := none } : HistoryRecord)] := by
    unfold recordSubscriptionAttempt
    rw [if_neg (by simp; omega)]
    simp
  refine ⟨?_, ?_, ?_, ?_⟩
  · rw [subscribeWithRetry_default_eq_loop, e1, e2, e3]
  · rw [subscribeWithRetry_default_eq_loop, e1, e2, e3]
    simp
  · rw [subscribeWithRetry_default_eq_loop, e1, e2, e3]
    simp [hh1, hh2, hh3]
  · rw [subscribeWithRetry_default_eq_loop, e1, e2, e3]
    simp [updateSubscriptionState_subscriptions_found cbs uid mt
      SubscriptionState.subscribed now _ _ hfound3, regGet_regSet_self, regSet_regSet]

/-! ## Lock-step invariant preservation (used for C1) -/

theorem mem_regSet (l : List (String × SubscriptionInfo)) (k : String)
    (v : SubscriptionInfo) (q : String × SubscriptionInfo) (hq : q ∈ regSet l k v) :
    q = (k, v) ∨ q ∈ l := by
  unfold regSet at hq
  by_cases hl : l.any (fun p => p.fst == k) = true
  · rw [if_pos hl] at hq
    rcases List.mem_map.mp hq with ⟨p, hp, hpq⟩
    by_cases hpk : p.fst = k
    · left
      simp [hpk] at hpq
      exact hpq.symm
    · right
      simp [hpk] at hpq
      exact hpq ▸ hp
  · rw [if_neg hl] at hq
    rcases List.mem_append.mp hq with h | h
    · right
      exact h
    · left
      simpa using h

theorem regGet_mem (l : List (String × SubscriptionInfo)) (k : String)
    (i : SubscriptionInfo) (h : regGet l k = some i) : ∃ p ∈ l, p.snd = i := by
  unfold regGet at h
  cases hf : l.find? (fun p => p.fst == k) with
  | none =>
    rw [hf] at h
    simp at h
  | some q =>
    rw [hf] at h
    simp at h
    exact ⟨q, List.mem_of_find?_eq_some hf, h⟩

theorem mem_regDeleteRaw (l : List (String × SubscriptionInfo)) (uid : UID)
    (q : String × SubscriptionInfo) (hq : q ∈ regDeleteRaw l uid) : q ∈ l := by
  unfold regDeleteRaw at hq
  cases uid with
  | str s => exact List.mem_of_mem_filter hq
  | num n => exact hq

theorem infoLockStep_default : infoLockStep {} := by
  constructor <;> rfl

theorem infoLockStep_setKindState (i : SubscriptionInfo) (mt : MediaType)
    (s : SubscriptionState) (now : Nat) (h : infoLockStep i) :
    infoLockStep (setKindState i mt s now) := by
  cases mt with
  | audio => exact ⟨by cases s <;> rfl, h.2⟩
  | video => exact ⟨h.1, by cases s <;> rfl⟩

theorem infoLockStep_applyPatch (e : SubscriptionInfo) (p : InfoPatch) (now : Nat)
    (h : infoLockStep e) : infoLockStep (applyPatch e p now) :=
  ⟨h.1, h.2⟩

theorem infoLockStep_mediaRefresh (i : SubscriptionInfo) (u : RemoteUser) (a v : Bool)
    (h : infoLockStep i) :
    infoLockStep { i with hasAudio := a, hasVideo := v, user := some u } :=
  ⟨h.1, h.2⟩

theorem stateLockStep_subscriptions_eq (st1 st2 : EngineState)
    (hs : st1.subscriptions = st2.subscriptions) (h : stateLockStep st2) :
    stateLockStep st1 := by
  intro p hp
  exact h p (hs ▸ hp)

theorem lockStep_regSet (l : List (String × SubscriptionInfo)) (k : String)
    (v : SubscriptionInfo) (hl : ∀ p ∈ l, infoLockStep p.snd) (hv : infoLockStep v) :
    ∀ p ∈ regSet l k v, infoLockStep p.snd := by
  intro p hp
  rcases mem_regSet l k v p hp with h | h
  · rw [h]
    exact hv
  · exact hl p h

theorem stateLockStep_updateSubscriptionState (cbs : Callbacks) (uid : UID)
    (mt : MediaType) (s : SubscriptionState) (now : Nat) (st : EngineState)
    (h : stateLockStep st) :
    stateLockStep (updateSubscriptionState cbs uid mt s now st) := by
  cases hr : regGet st.subscriptions (normalizeUID uid) with
  | none =>
    exact stateLockStep_subscriptions_eq _ st
      (updateSubscriptionState_subscriptions_missing cbs uid mt s now st hr) h
  | some i =>
    intro p hp
    rw [updateSubscriptionState_subscriptions_found cbs uid mt s now st i hr] at hp
    rcases regGet_mem _ _ _ hr with ⟨q, hq, hqi⟩
    exact lockStep_regSet _ _ _ (fun r hrm => h r hrm)
      (infoLockStep_setKindState i mt s now (hqi ▸ h q hq)) p hp

theorem stateLockStep_updateSubscriptionInfo (uid : UID) (p : InfoPatch) (now : Nat)
    (st : EngineState) (h : stateLockStep st) :
    stateLockStep (updateSubscriptionInfo uid p now st) := by
  intro q hq
  unfold updateSubscriptionInfo at hq
  rcases mem_regSet _ _ _ q hq with he | he
  · rw [he]
    apply infoLockStep_applyPatch
    cases hr : regGet st.subscriptions (normalizeUID uid) with
    | none => simpa [hr] using infoLockStep_default
    | some i =>
      rcases regGet_mem _ _ _ hr with ⟨r, hrm, hri⟩
      simpa [hr] using (hri ▸ h r hrm)
  · exact h q he

theorem stateLockStep_loop (env : Env) (cbs : Callbacks) (maxAttempts retryDelay : Nat)
    (uid : UID) (user : RemoteUser) (mt : MediaType) (now : Nat) :
    ∀ (fuel attempt : Nat) (st : EngineState), stateLockStep st →
      stateLockStep
        (subscribeWithRetryLoop env cbs maxAttempts retryDelay uid user mt
          now attempt fuel st).snd := by
  intro fuel
  induction fuel with
  | zero =>
    intro attempt st h
    exact h
  | succ fuel ih =>
    intro attempt st h
    have h2 : stateLockStep (performSubscription env user mt
        (updateSubscriptionState cbs uid mt SubscriptionState.subscribing now st)).snd :=
      stateLockStep_subscriptions_eq _ _ rfl
        (stateLockStep_updateSubscriptionState cbs uid mt SubscriptionState.subscribing now st h)
    rw [subscribeWithRetryLoop]
    split
    · exact stateLockStep_subscriptions_eq _
        (updateSubscriptionState cbs uid mt SubscriptionState.subscribed now
          (performSubscription env user mt
            (updateSubscriptionState cbs uid mt SubscriptionState.subscribing now st)).snd)
        (by simp)
        (stateLockStep_updateSubscriptionState cbs uid mt SubscriptionState.subscribed now _ h2)
    · exact ih (attempt + 1) _ h2
    · rename_i msg hmsg
      split
      · exact ih (attempt + 1) _ (stateLockStep_subscriptions_eq _ _ rfl h2)
      · exact stateLockStep_subscriptions_eq _
          (updateSubscriptionState cbs uid mt SubscriptionState.subscription_failed now
            (recordAttemptSt uid mt false attempt (some msg) now
              (performSubscription env user mt
                (updateSubscriptionState cbs uid mt SubscriptionState.subscribing now st)).snd))
          (by simp)
          (stateLockStep_updateSubscriptionState cbs uid mt
            SubscriptionState.subscription_failed now _
            (stateLockStep_subscriptions_eq _ _ rfl h2))

theorem stateLockStep_subscribeToUserChecked (env : Env) (cbs : Callbacks) (opts : Options)
    (optMax optDelay : Option Nat) (uid : UID) (mt : MediaType) (now : Nat)
    (st : EngineState) (info : SubscriptionInfo) (h : stateLockStep st) :
    stateLockStep (subscribeToUserChecked env cbs opts optMax optDelay uid mt
      now st info).snd := by
  unfold subscribeToUserChecked subscribeWithRetry
  split
  · exact h
  · split
    · exact h
    · split
      · exact h
      · split
        · exact h
        · exact stateLockStep_loop env cbs _ _ uid _ mt now _ 1 st h

theorem stateLockStep_subscribeToUser (env : Env) (cbs : Callbacks) (opts : Options)
    (optMax optDelay : Option Nat) (uid : UID) (mt : MediaType) (now : Nat)
    (st : EngineState) (h : stateLockStep st) :
    stateLockStep (subscribeToUser env cbs opts optMax optDelay uid mt now st).snd := by
  unfold subscribeToUser
  cases hr : regGet st.subscriptions (normalizeUID uid) with
  | some info =>
    exact stateLockStep_subscribeToUserChecked env cbs opts optMax optDelay uid mt
      now st info h
  | none =>
    cases hf : findRemoteUser env.remoteUsers uid with
    | none => exact h
    | some u =>
      dsimp only
      have h1 : stateLockStep (updateSubscriptionInfo uid
          { user := some u, hasAudio := some u.hasAudio, hasVideo := some u.hasVideo,
            state := some SubscriptionState.not_subscribed, joinedAt := some now } now st) :=
        stateLockStep_updateSubscriptionInfo _ _ _ _ h
      split
      · exact stateLockStep_subscribeToUserChecked env cbs opts optMax optDelay uid mt
          now _ _ h1
      · exact h1

@[simp] theorem clearBotSubscriptionRetry_subscriptions (uid : UID) (st : EngineState) :
    (clearBotSubscriptionRetry uid st).subscriptions = st.subscriptions := by
  unfold clearBotSubscriptionRetry
  split
  · split <;> rfl
  · rfl

@[simp] theorem scheduleBotSubscriptionRetry_subscriptions (uid : UID) (st : EngineState) :
    (scheduleBotSubscriptionRetry uid st).subscriptions = st.subscriptions := by
  unfold scheduleBotSubscriptionRetry
  simp

theorem stateLockStep_scheduleBot (uid : UID) (st : EngineState) (h : stateLockStep st) :
    stateLockStep (scheduleBotSubscriptionRetry uid st) :=
  stateLockStep_subscriptions_eq _ st (by simp) h

theorem stateLockStep_handleUserPublished (env : Env) (cbs : Callbacks) (opts : Options)
    (user : RemoteUser) (mt : MediaType) (now : Nat) (st : EngineState)
    (h : stateLockStep st) :
    stateLockStep (handleUserPublished env cbs opts user mt now st) := by
  have hsub : ∀ st1 : EngineState, stateLockStep st1 →
      stateLockStep (subscribeToUser env cbs opts none none user.uid mt now st1).snd :=
    fun st1 h1 => stateLockStep_subscribeToUser env cbs opts none none user.uid mt now st1 h1
  unfold handleUserPublished
  cases hr : regGet st.subscriptions (normalizeUID user.uid) with
  | some info =>
    dsimp only
    have hbase : stateLockStep { st with subscriptions := regSet st.subscriptions (normalizeUID user.uid) ({ info with hasAudio := user.hasAudio, hasVideo := user.hasVideo, user := some user }) } := by
      intro p hp
      rcases regGet_mem _ _ _ hr with ⟨q, hq, hqi⟩
      exact lockStep_regSet _ _ _ h
        (infoLockStep_mediaRefresh info user user.hasAudio user.hasVideo (hqi ▸ h q hq)) p hp
    repeat' split
    all_goals first
      | exact hbase
      | exact hsub _ hbase
      | exact hsub _ (hsub _ hbase)
      | exact stateLockStep_scheduleBot _ _ hbase
      | exact stateLockStep_scheduleBot _ _ (hsub _ hbase)
  | none =>
    dsimp only
    have hbase : stateLockStep (updateSubscriptionInfo user.uid
        { user := some user, hasAudio := some user.hasAudio,
          hasVideo := some user.hasVideo,
          state := some SubscriptionState.not_subscribed,
          joinedAt := some now } now st) :=
      stateLockStep_updateSubscriptionInfo _ _ _ _ h
    repeat' split
    all_goals first
      | exact hbase
      | exact hsub _ hbase
      | exact hsub _ (hsub _ hbase)
      | exact stateLockStep_scheduleBot _ _ hbase
      | exact stateLockStep_scheduleBot _ _ (hsub _ hbase)

theorem stateLockStep_handleUserJoined (env : Env) (cbs : Callbacks) (opts : Options)
    (user : RemoteUser) (now : Nat) (st : EngineState) (h : stateLockStep st) :
    stateLockStep (handleUserJoined env cbs opts user now st) := by
  have hsub : ∀ st1 : EngineState, stateLockStep st1 →
      stateLockStep (subscribeToUser env cbs opts none none user.uid
        MediaType.audio now st1).snd :=
    fun st1 h1 => stateLockStep_subscribeToUser env cbs opts none none user.uid
      MediaType.audio now st1 h1
  unfold handleUserJoined attemptAutoSubscription
  dsimp only
  have hbase : stateLockStep (updateSubscriptionInfo user.uid
      { state := some SubscriptionState.not_subscribed, user := some user,
        joinedAt := some now, hasAudio := some user.hasAudio,
        hasVideo := some user.hasVideo } now st) :=
    stateLockStep_updateSubscriptionInfo _ _ _ _ h
  repeat' split
  all_goals first
    | exact hbase
    | exact hsub _ hbase
    | exact hsub _ (hsub _ hbase)

@[simp] theorem cleanupUserSubscription_subscriptions (uid : UID) (st : EngineState) :
    (cleanupUserSubscription uid st).subscriptions = regDeleteRaw st.subscriptions uid := by
  unfold cleanupUserSubscription
  split
  · split <;> rfl
  · rfl

theorem stateLockStep_cleanup (uid : UID) (st : EngineState) (h : stateLockStep st) :
    stateLockStep (cleanupUserSubscription uid st) := by
  intro p hp
  rw [cleanupUserSubscription_subscriptions] at hp
  exact h p (mem_regDeleteRaw _ _ _ hp)

theorem stateLockStep_unsubscribeFromUser (env : Env) (cbs : Callbacks) (opts : Options)
    (uid : UID) (mt : MediaType) (now : Nat) (st : EngineState) (h : stateLockStep st) :
    stateLockStep (unsubscribeFromUser env cbs opts uid mt now st).snd := by
  unfold unsubscribeFromUser
  split
  · exact h
  · split
    · exact h
    · dsimp only
      have hmid : stateLockStep { updateSubscriptionState cbs uid mt
          SubscriptionState.unsubscribing now st with
            unsubscribeCalls := (updateSubscriptionState cbs uid mt
              SubscriptionState.unsubscribing now st).unsubscribeCalls + 1 } :=
        stateLockStep_subscriptions_eq _ _ rfl
          (stateLockStep_updateSubscriptionState cbs uid mt
            SubscriptionState.unsubscribing now st h)
      split
      · exact stateLockStep_updateSubscriptionState cbs uid mt
          SubscriptionState.not_subscribed now _ hmid
      · exact stateLockStep_updateSubscriptionState cbs uid mt
          SubscriptionState.subscription_failed now _ hmid

/-- C1 amended: the lock-step equivalence between each subscribed flag and its
state enum being SUBSCRIBED is preserved by every modelled engine operation
other than the unpublished event handler - the joined and published
handlers, subscribeToUser, unsubscribeFromUser, participant removal, and
every state transition of the retry machinery (updateSubscriptionState
always rederives the flag from the new state).  The unpublished handler is
the one exception: it clears the flag and leaves the state enum untouched
(see the counterexample). -/
theorem C1_lockstep_preserved (env : Env) (cbs : Callbacks) (opts : Options)
    (op : EngineOp) (now : Nat) (st : EngineState)
    (hop : op.isUnpublished = false) (h : stateLockStep st) :
    stateLockStep (applyOp env cbs opts op now st) := by
  cases op with
  | joined u => exact stateLockStep_handleUserJoined env cbs opts u now st h
  | published u mt => exact stateLockStep_handleUserPublished env cbs opts u mt now st h
  | unpublished u mt => simp [EngineOp.isUnpublished] at hop
  | left u => exact stateLockStep_cleanup u.uid st h
  | subscribe uid mt => exact stateLockStep_subscribeToUser env cbs opts none none uid mt now st h
  | unsubscribe uid mt => exact stateLockStep_unsubscribeFromUser env cbs opts uid mt now st h

/-- Witness for C1 amended: the joined handler (with a successful
auto-subscription) applied to the empty engine state preserves lock-step. -/
theorem C1_lockstep_preserved_witness :
    stateLockStep (applyOp envAlwaysOk noCallbacks defaultOptions
      (EngineOp.joined userP) 0 {}) :=
  C1_lockstep_preserved envAlwaysOk noCallbacks defaultOptions
    (EngineOp.joined userP) 0 {} rfl (by intro p hp; simp at hp)

/-! ## Preservation of joinedAt (used for C8) -/

@[simp] theorem setKindState_joinedAt (i : SubscriptionInfo) (mt : MediaType)
    (s : SubscriptionState) (n : Nat) :
    (setKindState i mt s n).joinedAt = i.joinedAt := by
  cases mt <;> rfl

theorem joinedAtKept_refl (st : EngineState) : joinedAtKept st st :=
  fun k i h => ⟨i, h, rfl⟩

theorem joinedAtKept_trans (a b c : EngineState) (h1 : joinedAtKept a b)
    (h2 : joinedAtKept b c) : joinedAtKept a c := by
  intro k i h
  rcases h1 k i h with ⟨i2, hi2, he2⟩
  rcases h2 k i2 hi2 with ⟨i3, hi3, he3⟩
  exact ⟨i3, hi3, he3.trans he2⟩

theorem joinedAtKept_of_subscriptions_eq (a b : EngineState)
    (hs : b.subscriptions = a.subscriptions) : joinedAtKept a b := by
  intro k i h
  exact ⟨i, hs ▸ h, rfl⟩

theorem joinedAtKept_updateSubscriptionState (cbs : Callbacks) (uid : UID)
    (mt : MediaType) (s : SubscriptionState) (now : Nat) (st : EngineState) :
    joinedAtKept st (updateSubscriptionState cbs uid mt s now st) := by
  cases hr : regGet st.subscriptions (normalizeUID uid) with
  | none =>
    exact joinedAtKept_of_subscriptions_eq st _
      (updateSubscriptionState_subscriptions_missing cbs uid mt s now st hr)
  | some i0 =>
    intro k i h
    rw [updateSubscriptionState_subscriptions_found cbs uid mt s now st i0 hr]
    by_cases hk : k = normalizeUID uid
    · subst hk
      have : i = i0 := by
        rw [hr] at h
        exact (Option.some.injEq _ _ ▸ h).symm ▸ rfl
      refine ⟨setKindState i0 mt s now, regGet_regSet_self _ _ _, ?_⟩
      rw [setKindState_joinedAt, this]
    · exact ⟨i, by rw [regGet_regSet_ne _ _ _ _ hk]; exact h, rfl⟩

theorem joinedAtKept_updateSubscriptionInfo_missing (uid : UID) (p : InfoPatch)
    (now : Nat) (st : EngineState)
    (hr : regGet st.subscriptions (normalizeUID uid) = none) :
    joinedAtKept st (updateSubscriptionInfo uid p now st) := by
  intro k i h
  unfold updateSubscriptionInfo
  by_cases hk : k = normalizeUID uid
  · subst hk
    rw [hr] at h
    cases h
  · exact ⟨i, by simp only []; rw [regGet_regSet_ne _ _ _ _ hk]; exact h, rfl⟩

theorem joinedAtKept_loop (env : Env) (cbs : Callbacks) (maxAttempts retryDelay : Nat)
    (uid : UID) (user : RemoteUser) (mt : MediaType) (now : Nat) :
    ∀ (fuel attempt : Nat) (st : EngineState),
      joinedAtKept st
        (subscribeWithRetryLoop env cbs maxAttempts retryDelay uid user mt
          now attempt fuel st).snd := by
  intro fuel
  induction fuel with
  | zero =>
    intro attempt st
    exact joinedAtKept_refl st
  | succ fuel ih =>
    intro attempt st
    have h1 : joinedAtKept st (performSubscription env user mt
        (updateSubscriptionState cbs uid mt SubscriptionState.subscribing now st)).snd :=
      joinedAtKept_trans _ _ _
        (joinedAtKept_updateSubscriptionState cbs uid mt SubscriptionState.subscribing now st)
        (joinedAtKept_of_subscriptions_eq _ _ rfl)
    rw [subscribeWithRetryLoop]
    split
    · exact joinedAtKept_trans _ _ _
        (joinedAtKept_trans _ _ _ h1
          (joinedAtKept_updateSubscriptionState cbs uid mt SubscriptionState.subscribed now _))
        (joinedAtKept_of_subscriptions_eq _ _ (by simp))
    · exact joinedAtKept_trans _ _ _ h1 (ih (attempt + 1) _)
    · rename_i msg hmsg
      split
      · exact joinedAtKept_trans _ _ _
          (joinedAtKept_trans _ _ _ h1
            (joinedAtKept_of_subscriptions_eq _
              (sleepSt (retryDelay * attempt)
                (recordAttemptSt uid mt false attempt (some msg) now
                  (performSubscription env user mt
                    (updateSubscriptionState cbs uid mt
                      SubscriptionState.subscribing now st)).snd))
              rfl))
          (ih (attempt + 1) _)
      · exact joinedAtKept_trans _ _ _
          (joinedAtKept_trans _ _ _
            (joinedAtKept_trans _ _ _ h1
              (joinedAtKept_of_subscriptions_eq _
                (recordAttemptSt uid mt false attempt (some msg) now
                  (performSubscription env user mt
                    (updateSubscriptionState cbs uid mt
                      SubscriptionState.subscribing now st)).snd)
                rfl))
            (joinedAtKept_updateSubscriptionState cbs uid mt
              SubscriptionState.subscription_failed now _))
          (joinedAtKept_of_subscriptions_eq _ _ (by simp))

theorem joinedAtKept_subscribeToUserChecked (env : Env) (cbs : Callbacks) (opts : Options)
    (optMax optDelay : Option Nat) (uid : UID) (mt : MediaType) (now : Nat)
    (st : EngineState) (info : SubscriptionInfo) :
    joinedAtKept st (subscribeToUserChecked env cbs opts optMax optDelay uid mt
      now st info).snd := by
  unfold subscribeToUserChecked subscribeWithRetry
  split
  · exact joinedAtKept_refl st
  · split
    · exact joinedAtKept_refl st
    · split
      · exact joinedAtKept_refl st
      · split
        · exact joinedAtKept_refl st
        · exact joinedAtKept_loop env cbs _ _ uid _ mt now _ 1 st

theorem joinedAtKept_subscribeToUser (env : Env) (cbs : Callbacks) (opts : Options)
    (optMax optDelay : Option Nat) (uid : UID) (mt : MediaType) (now : Nat)
    (st : EngineState) :
    joinedAtKept st (subscribeToUser env cbs opts optMax optDelay uid mt now st).snd := by
  unfold subscribeToUser
  cases hr : regGet st.subscriptions (normalizeUID uid) with
  | some info =>
    exact joinedAtKept_subscribeToUserChecked env cbs opts optMax optDelay uid mt now st info
  | none =>
    cases hf : findRemoteUser env.remoteUsers uid with
    | none => exact joinedAtKept_refl st
    | some u =>
      dsimp only
      have h1 : joinedAtKept st (updateSubscriptionInfo uid
          { user := some u, hasAudio := some u.hasAudio, hasVideo := some u.hasVideo,
            state := some SubscriptionState.not_subscribed, joinedAt := some now } now st) :=
        joinedAtKept_updateSubscriptionInfo_missing uid _ now st hr
      split
      · exact joinedAtKept_trans _ _ _ h1
          (joinedAtKept_subscribeToUserChecked env cbs opts optMax optDelay uid mt now _ _)
      · exact h1

theorem joinedAtKept_scheduleBot (uid : UID) (st : EngineState) :
    joinedAtKept st (scheduleBotSubscriptionRetry uid st) :=
  joinedAtKept_of_subscriptions_eq _ _ (by simp)

theorem joinedAtKept_handleUserPublished (env : Env) (cbs : Callbacks) (opts : Options)
    (user : RemoteUser) (mt : MediaType) (now : Nat) (st : EngineState) :
    joinedAtKept st (handleUserPublished env cbs opts user mt now st) := by
  have hsub : ∀ st1 : EngineState,
      joinedAtKept st1 (subscribeToUser env cbs opts none none user.uid mt now st1).snd :=
    fun st1 => joinedAtKept_subscribeToUser env cbs opts none none user.uid mt now st1
  unfold handleUserPublished
  cases hr : regGet st.subscriptions (normalizeUID user.uid) with
  | some info =>
    dsimp only
    have hbase : joinedAtKept st { st with subscriptions := regSet st.subscriptions (normalizeUID user.uid) ({ info with hasAudio := user.hasAudio, hasVideo := user.hasVideo, user := some user }) } := by
      intro k i h
      by_cases hk : k = normalizeUID user.uid
      · subst hk
        have : i = info := by
          rw [hr] at h
          exact (Option.some.injEq _ _ ▸ h).symm ▸ rfl
        subst this
        exact ⟨_, regGet_regSet_self _ _ _, rfl⟩
      · exact ⟨i, by simp only []; rw [regGet_regSet_ne _ _ _ _ hk]; exact h, rfl⟩
    repeat' split
    all_goals first
      | exact hbase
      | exact joinedAtKept_trans _ _ _ hbase (hsub _)
      | exact joinedAtKept_trans _ _ _ (joinedAtKept_trans _ _ _ hbase (hsub _)) (hsub _)
      | exact joinedAtKept_trans _ _ _ hbase (joinedAtKept_scheduleBot _ _)
      | exact joinedAtKept_trans _ _ _ (joinedAtKept_trans _ _ _ hbase (hsub _))
          (joinedAtKept_scheduleBot _ _)
  | none =>
    dsimp only
    have hbase : joinedAtKept st (updateSubscriptionInfo user.uid
        { user := some user, hasAudio := some user.hasAudio,
          hasVideo := some user.hasVideo,
          state := some SubscriptionState.not_subscribed,
          joinedAt := some now } now st) :=
      joinedAtKept_updateSubscriptionInfo_missing user.uid _ now st hr
    repeat' split
    all_goals first
      | exact hbase
      | exact joinedAtKept_trans _ _ _ hbase (hsub _)
      | exact joinedAtKept_trans _ _ _ (joinedAtKept_trans _ _ _ hbase (hsub _)) (hsub _)
      | exact joinedAtKept_trans _ _ _ hbase (joinedAtKept_scheduleBot _ _)
      | exact joinedAtKept_trans _ _ _ (joinedAtKept_trans _ _ _ hbase (hsub _))
          (joinedAtKept_scheduleBot _ _)

theorem joinedAtKept_handleUserUnpublished (user : RemoteUser) (mt : MediaType)
    (st : EngineState) :
    joinedAtKept st (handleUserUnpublished user mt st) := by
  unfold handleUserUnpublished
  cases hr : regGet st.subscriptions (normalizeUID user.uid) with
  | none => exact joinedAtKept_refl st
  | some info =>
    intro k i h
    by_cases hk : k = normalizeUID user.uid
    · subst hk
      have : i = info := by
        rw [hr] at h
        exact (Option.some.injEq _ _ ▸ h).symm ▸ rfl
      subst this
      cases mt <;> exact ⟨_, regGet_regSet_self _ _ _, rfl⟩
    · cases mt <;>
        exact ⟨i, by simp only []; rw [regGet_regSet_ne _ _ _ _ hk]; exact h, rfl⟩

theorem joinedAtKept_unsubscribeFromUser (env : Env) (cbs : Callbacks) (opts : Options)
    (uid : UID) (mt : MediaType) (now : Nat) (st : EngineState) :
    joinedAtKept st (unsubscribeFromUser env cbs opts uid mt now st).snd := by
  unfold unsubscribeFromUser
  split
  · exact joinedAtKept_refl st
  · split
    · exact joinedAtKept_refl st
    · dsimp only
      have hmid : joinedAtKept st { updateSubscriptionState cbs uid mt
          SubscriptionState.unsubscribing now st with
            unsubscribeCalls := (updateSubscriptionState cbs uid mt
              SubscriptionState.unsubscribing now st).unsubscribeCalls + 1 } :=
        joinedAtKept_trans _ _ _
          (joinedAtKept_updateSubscriptionState cbs uid mt
            SubscriptionState.unsubscribing now st)
          (joinedAtKept_of_subscriptions_eq _ _ rfl)
      split
      · exact joinedAtKept_trans _ _ _ hmid
          (joinedAtKept_updateSubscriptionState cbs uid mt
            SubscriptionState.not_subscribed now _)
      · exact joinedAtKept_trans _ _ _ hmid
          (joinedAtKept_updateSubscriptionState cbs uid mt
            SubscriptionState.subscription_failed now _)

theorem find?_filter_key_ne (l : List (String × SubscriptionInfo)) (s k : String)
    (h : k ≠ s) :
    List.find? (fun p => p.fst == k) (l.filter (fun p => p.fst != s))
      = List.find? (fun p => p.fst == k) l := by
  induction l with
  | nil => rfl
  | cons p t ih =>
    rw [List.filter_cons]
    by_cases hp : p.fst = s
    · have hpk : (p.fst == k) = false := by simp [hp, Ne.symm h]
      rw [if_neg (by simp [hp])]
      simp only [List.find?_cons, hpk]
      exact ih
    · rw [if_pos (by simp [hp])]
      by_cases hpk : p.fst = k
      · have hpk2 : (p.fst == k) = true := by simp [hpk]
        simp only [List.find?_cons, hpk2]
      · have hpk2 : (p.fst == k) = false := by simp [hpk]
        simp only [List.find?_cons, hpk2]
        exact ih

theorem regGet_regDeleteRaw_str_ne (l : List (String × SubscriptionInfo)) (s k : String)
    (h : k ≠ s) : regGet (regDeleteRaw l (UID.str s)) k = regGet l k := by
  unfold regGet regDeleteRaw
  rw [find?_filter_key_ne l s k h]

theorem joinedAtFrozen_of_kept (a b : EngineState) (h : joinedAtKept a b) :
    joinedAtFrozen a b := by
  intro k i hk
  rcases h k i hk with ⟨i2, hi2, he2⟩
  exact Or.inr ⟨i2, hi2, he2⟩

theorem joinedAtFrozen_cleanup (uid : UID) (st : EngineState) :
    joinedAtFrozen st (cleanupUserSubscription uid st) := by
  intro k i h
  rw [cleanupUserSubscription_subscriptions]
  cases uid with
  | num n => exact Or.inr ⟨i, h, rfl⟩
  | str s =>
    by_cases hk : k = s
    · subst hk
      left
      unfold regDeleteRaw regGet
      have : (st.subscriptions.filter (fun p => p.fst != k)).find?
          (fun p => p.fst == k) = none := by
        rw [List.find?_eq_none]
        intro p hp
        have := (List.mem_filter.mp hp).2
        simpa using this
      rw [this]
      rfl
    · rw [regGet_regDeleteRaw_str_ne _ _ _ hk]
      exact Or.inr ⟨i, h, rfl⟩

/-- C8 amended: once a record's joinedAt is set, every modelled operation
other than a joined notification leaves it unchanged for as long as the
record exists (a left notification may delete the record; nothing else
rewrites joinedAt - later updates refresh only updatedAt and the media /
state fields).  A subsequent joined notification for the same participant is
the exception: its handler explicitly supplies a fresh joinedAt to the
upsert, whose spread merge lets supplied fields win (see the
counterexample). -/
theorem C8_joinedAt_immutable (env : Env) (cbs : Callbacks) (opts : Options)
    (op : EngineOp) (now : Nat) (st : EngineState)
    (hop : op.isJoined = false) :
    joinedAtFrozen st (applyOp env cbs opts op now st) := by
  cases op with
  | joined u => simp [EngineOp.isJoined] at hop
  | published u mt =>
    exact joinedAtFrozen_of_kept _ _ (joinedAtKept_handleUserPublished env cbs opts u mt now st)
  | unpublished u mt =>
    exact joinedAtFrozen_of_kept _ _ (joinedAtKept_handleUserUnpublished u mt st)
  | left u => exact joinedAtFrozen_cleanup u.uid st
  | subscribe uid mt =>
    exact joinedAtFrozen_of_kept _ _
      (joinedAtKept_subscribeToUser env cbs opts none none uid mt now st)
  | unsubscribe uid mt =>
    exact joinedAtFrozen_of_kept _ _
      (joinedAtKept_unsubscribeFromUser env cbs opts uid mt now st)

/-- Witness for C8 amended: after userQ joined at time 5, an unpublished
notification at time 9 leaves the record's joinedAt at 5 (or the record
deleted, which does not happen here). -/
theorem C8_joinedAt_immutable_witness :
    regGet (applyOp envInert noCallbacks defaultOptions
      (EngineOp.unpublished userQ MediaType.audio) 9 stQ).subscriptions "q" = none ∨
    ∃ i2, regGet (applyOp envInert noCallbacks defaultOptions
      (EngineOp.unpublished userQ MediaType.audio) 9 stQ).subscriptions "q" = some i2 ∧
      i2.joinedAt = infoQ.joinedAt :=
  C8_joinedAt_immutable envInert noCallbacks defaultOptions
    (EngineOp.unpublished userQ MediaType.audio) 9 stQ rfl "q" infoQ (by decide)

/-! ## Callback-independence of the engine state (used for C7) -/

theorem stripGhost_eq_iff (st1 st2 : EngineState) :
    stripGhost st1 = stripGhost st2 ↔
      (st1.subscriptions = st2.subscriptions ∧
       st1.subscriptionHistory = st2.subscriptionHistory ∧
       st1.retryTimers = st2.retryTimers ∧
       st1.nextTimerId = st2.nextTimerId ∧
       st1.subscribeCalls = st2.subscribeCalls ∧
       st1.unsubscribeCalls = st2.unsubscribeCalls ∧
       st1.sleeps = st2.sleeps) := by
  constructor
  · intro h
    refine ⟨?_, ?_, ?_, ?_, ?_, ?_, ?_⟩ <;>
      first
        | (have hx := congrArg EngineState.subscriptions h; exact hx)
        | (have hx := congrArg EngineState.subscriptionHistory h; exact hx)
        | (have hx := congrArg EngineState.retryTimers h; exact hx)
        | (have hx := congrArg EngineState.nextTimerId h; exact hx)
        | (have hx := congrArg EngineState.subscribeCalls h; exact hx)
        | (have hx := congrArg EngineState.unsubscribeCalls h; exact hx)
        | (have hx := congrArg EngineState.sleeps h; exact hx)
  · intro h
    obtain ⟨h1, h2, h3, h4, h5, h6, h7⟩ := h
    simp only [stripGhost, EngineState.mk.injEq]
    refine ⟨h1, h2, h3, h4, h5, h6, h7, ?_, ?_, ?_, ?_⟩ <;> trivial

theorem ghost_noteCallbackOutcome (r : Except String Unit) (st : EngineState) :
    stripGhost (noteCallbackOutcome r st) = stripGhost st := by
  cases r <;> rfl

theorem ghost_invokeStateChanged (cbs : Callbacks) (uid : UID) (mt : MediaType)
    (s : SubscriptionState) (st : EngineState) :
    stripGhost (invokeStateChanged cbs uid mt s st) = stripGhost st := by
  unfold invokeStateChanged
  cases cbs.onSubscriptionStateChanged with
  | none => rfl
  | some cb =>
    rw [ghost_noteCallbackOutcome]
    rfl

theorem ghost_invokeSuccess (cbs : Callbacks) (uid : UID) (mt : MediaType)
    (result : Bool) (st : EngineState) :
    stripGhost (invokeSuccess cbs uid mt result st) = stripGhost st := by
  unfold invokeSuccess
  cases cbs.onSubscriptionSuccess with
  | none => rfl
  | some cb =>
    rw [ghost_noteCallbackOutcome]
    rfl

theorem ghost_invokeFailed (cbs : Callbacks) (uid : UID) (mt : MediaType)
    (msg : String) (st : EngineState) :
    stripGhost (invokeFailed cbs uid mt msg st) = stripGhost st := by
  unfold invokeFailed
  cases cbs.onSubscriptionFailed with
  | none => rfl
  | some cb =>
    rw [ghost_noteCallbackOutcome]
    rfl

theorem ghost_withSubs (X : List (String × SubscriptionInfo)) (st1 st2 : EngineState)
    (h : stripGhost st1 = stripGhost st2) :
    stripGhost { st1 with subscriptions := X }
      = stripGhost { st2 with subscriptions := X } := by
  rw [stripGhost_eq_iff] at h ⊢
  obtain ⟨h1, h2, h3, h4, h5, h6, h7⟩ := h
  exact ⟨rfl, h2, h3, h4, h5, h6, h7⟩

theorem ghost_updateSubscriptionState (cbs cbs2 : Callbacks) (uid : UID) (mt : MediaType)
    (s : SubscriptionState) (now : Nat) (st1 st2 : EngineState)
    (h : stripGhost st1 = stripGhost st2) :
    stripGhost (updateSubscriptionState cbs uid mt s now st1)
      = stripGhost (updateSubscriptionState cbs2 uid mt s now st2) := by
  have hs : st1.subscriptions = st2.subscriptions := by
    have hx := congrArg EngineState.subscriptions h
    exact hx
  unfold updateSubscriptionState
  rw [hs]
  cases regGet st2.subscriptions (normalizeUID uid) with
  | none => exact h
  | some i =>
    rw [ghost_invokeStateChanged, ghost_invokeStateChanged]
    exact ghost_withSubs _ st1 st2 h

theorem ghost_updateSubscriptionInfo (uid : UID) (p : InfoPatch) (now : Nat)
    (st1 st2 : EngineState) (h : stripGhost st1 = stripGhost st2) :
    stripGhost (updateSubscriptionInfo uid p now st1)
      = stripGhost (updateSubscriptionInfo uid p now st2) := by
  have hs : st1.subscriptions = st2.subscriptions := by
    have hx := congrArg EngineState.subscriptions h
    exact hx
  unfold updateSubscriptionInfo
  rw [hs]
  exact ghost_withSubs _ st1 st2 h

theorem ghost_recordAttemptSt (uid : UID) (mt : MediaType) (success : Bool)
    (attempt : Nat) (msg : Option String) (now : Nat) (st1 st2 : EngineState)
    (h : stripGhost st1 = stripGhost st2) :
    stripGhost (recordAttemptSt uid mt success attempt msg now st1)
      = stripGhost (recordAttemptSt uid mt success attempt msg now st2) := by
  rw [stripGhost_eq_iff] at h ⊢
  obtain ⟨h1, h2, h3, h4, h5, h6, h7⟩ := h
  exact ⟨h1, by rw [recordAttemptSt_subscriptionHistory, recordAttemptSt_subscriptionHistory, h2],
    h3, h4, h5, h6, h7⟩

theorem ghost_sleepSt (ms : Nat) (st1 st2 : EngineState)
    (h : stripGhost st1 = stripGhost st2) :
    stripGhost (sleepSt ms st1) = stripGhost (sleepSt ms st2) := by
  rw [stripGhost_eq_iff] at h ⊢
  obtain ⟨h1, h2, h3, h4, h5, h6, h7⟩ := h
  exact ⟨h1, h2, h3, h4, h5, h6, by rw [sleepSt_sleeps, sleepSt_sleeps, h7]⟩

theorem performSubscription_fst (env : Env) (user : RemoteUser) (mt : MediaType)
    (st : EngineState) :
    (performSubscription env user mt st).fst
      = env.subscribeOutcome st.subscribeCalls user mt := rfl

theorem ghost_performSnd (env : Env) (user : RemoteUser) (mt : MediaType)
    (st1 st2 : EngineState) (h : stripGhost st1 = stripGhost st2) :
    stripGhost (performSubscription env user mt st1).snd
      = stripGhost (performSubscription env user mt st2).snd := by
  rw [stripGhost_eq_iff] at h ⊢
  obtain ⟨h1, h2, h3, h4, h5, h6, h7⟩ := h
  exact ⟨h1, h2, h3, h4, by simp [performSubscription, h5], h6, h7⟩

theorem ghost_loop (env : Env) (cbs cbs2 : Callbacks) (maxAttempts retryDelay : Nat)
    (uid : UID) (user : RemoteUser) (mt : MediaType) (now : Nat) :
    ∀ (fuel attempt : Nat) (st1 st2 : EngineState),
      stripGhost st1 = stripGhost st2 →
      (subscribeWithRetryLoop env cbs maxAttempts retryDelay uid user mt
          now attempt fuel st1).fst
        = (subscribeWithRetryLoop env cbs2 maxAttempts retryDelay uid user mt
          now attempt fuel st2).fst ∧
      stripGhost (subscribeWithRetryLoop env cbs maxAttempts retryDelay uid user mt
          now attempt fuel st1).snd
        = stripGhost (subscribeWithRetryLoop env cbs2 maxAttempts retryDelay uid user mt
          now attempt fuel st2).snd := by
  intro fuel
  induction fuel with
  | zero =>
    intro attempt st1 st2 h
    exact ⟨rfl, h⟩
  | succ fuel ih =>
    intro attempt st1 st2 h
    have hcalls : st1.subscribeCalls = st2.subscribeCalls := by
      have hx := congrArg EngineState.subscribeCalls h
      exact hx
    have hup : stripGhost (updateSubscriptionState cbs uid mt
        SubscriptionState.subscribing now st1)
        = stripGhost (updateSubscriptionState cbs2 uid mt
        SubscriptionState.subscribing now st2) :=
      ghost_updateSubscriptionState cbs cbs2 uid mt SubscriptionState.subscribing now st1 st2 h
    have hps : stripGhost (performSubscription env user mt
        (updateSubscriptionState cbs uid mt SubscriptionState.subscribing now st1)).snd
        = stripGhost (performSubscription env user mt
        (updateSubscriptionState cbs2 uid mt SubscriptionState.subscribing now st2)).snd :=
      ghost_performSnd env user mt _ _ hup
    cases hout : env.subscribeOutcome st2.subscribeCalls user mt with
    | resolved b =>
      cases b with
      | true =>
        rw [subscribeWithRetryLoop, subscribeWithRetryLoop]
        simp only [performSubscription_fst, updateSubscriptionState_subscribeCalls,
          hcalls, hout]
        refine ⟨trivial, ?_⟩
        rw [ghost_invokeSuccess, ghost_invokeSuccess]
        exact ghost_recordAttemptSt uid mt true attempt none now _ _
          (ghost_updateSubscriptionState cbs cbs2 uid mt SubscriptionState.subscribed now _ _ hps)
      | false =>
        rw [subscribeWithRetryLoop, subscribeWithRetryLoop]
        simp only [performSubscription_fst, updateSubscriptionState_subscribeCalls,
          hcalls, hout]
        exact ih (attempt + 1) _ _ hps
    | raised msg =>
      rw [subscribeWithRetryLoop, subscribeWithRetryLoop]
      simp only [performSubscription_fst, updateSubscriptionState_subscribeCalls,
        hcalls, hout]
      by_cases hlt : attempt < maxAttempts
      · rw [if_pos hlt, if_pos hlt]
        exact ih (attempt + 1) _ _
          (ghost_sleepSt (retryDelay * attempt) _ _
            (ghost_recordAttemptSt uid mt false attempt (some msg) now _ _ hps))
      · rw [if_neg hlt, if_neg hlt]
        refine ⟨rfl, ?_⟩
        rw [ghost_invokeFailed, ghost_invokeFailed]
        exact ghost_updateSubscriptionState cbs cbs2 uid mt
          SubscriptionState.subscription_failed now _ _
          (ghost_recordAttemptSt uid mt false attempt (some msg) now _ _ hps)

theorem ghost_subscribeWithRetry (env : Env) (cbs cbs2 : Callbacks) (opts : Options)
    (optMax optDelay : Option Nat) (uid : UID) (user : RemoteUser) (mt : MediaType)
    (now : Nat) (st1 st2 : EngineState) (h : stripGhost st1 = stripGhost st2) :
    (subscribeWithRetry env cbs opts optMax optDelay uid user mt now st1).fst
      = (subscribeWithRetry env cbs2 opts optMax optDelay uid user mt now st2).fst ∧
    stripGhost (subscribeWithRetry env cbs opts optMax optDelay uid user mt now st1).snd
      = stripGhost (subscribeWithRetry env cbs2 opts optMax optDelay uid user mt now st2).snd := by
  unfold subscribeWithRetry
  exact ghost_loop env cbs cbs2 (jsOr optMax opts.maxRetryAttempts)
    (jsOr optDelay opts.retryDelay) uid user mt now (jsOr optMax opts.maxRetryAttempts)
    1 st1 st2 h

theorem ghost_isAlreadySubscribed (st1 st2 : EngineState) (uid : UID) (mt : MediaType)
    (h : stripGhost st1 = stripGhost st2) :
    isAlreadySubscribed st1 uid mt = isAlreadySubscribed st2 uid mt := by
  have hs : st1.subscriptions = st2.subscriptions := by
    have hx := congrArg EngineState.subscriptions h
    exact hx
  unfold isAlreadySubscribed
  rw [hs]

theorem ghost_subscribeToUserChecked (env : Env) (cbs cbs2 : Callbacks) (opts : Options)
    (optMax optDelay : Option Nat) (uid : UID) (mt : MediaType) (now : Nat)
    (st1 st2 : EngineState) (info : SubscriptionInfo)
    (h : stripGhost st1 = stripGhost st2) :
    (subscribeToUserChecked env cbs opts optMax optDelay uid mt now st1 info).fst
      = (subscribeToUserChecked env cbs2 opts optMax optDelay uid mt now st2 info).fst ∧
    stripGhost (subscribeToUserChecked env cbs opts optMax optDelay uid mt now st1 info).snd
      = stripGhost (subscribeToUserChecked env cbs2 opts optMax optDelay uid mt now st2 info).snd := by
  unfold subscribeToUserChecked
  cases info.user with
  | none => exact ⟨rfl, h⟩
  | some user =>
    dsimp only
    rw [ghost_isAlreadySubscribed st1 st2 uid mt h]
    by_cases h1 : (mt == MediaType.audio && !user.hasAudio) = true
    · rw [if_pos h1, if_pos h1]
      exact ⟨rfl, h⟩
    · rw [if_neg h1, if_neg h1]
      by_cases h2 : (mt == MediaType.video && !user.hasVideo) = true
      · rw [if_pos h2, if_pos h2]
        exact ⟨rfl, h⟩
      · rw [if_neg h2, if_neg h2]
        by_cases h3 : isAlreadySubscribed st2 uid mt = true
        · rw [if_pos h3, if_pos h3]
          exact ⟨rfl, h⟩
        · rw [if_neg h3, if_neg h3]
          exact ghost_subscribeWithRetry env cbs cbs2 opts optMax optDelay uid user mt now st1 st2 h

theorem ghost_subscribeToUser (env : Env) (cbs cbs2 : Callbacks) (opts : Options)
    (optMax optDelay : Option Nat) (uid : UID) (mt : MediaType) (now : Nat)
    (st1 st2 : EngineState) (h : stripGhost st1 = stripGhost st2) :
    (subscribeToUser env cbs opts optMax optDelay uid mt now st1).fst
      = (subscribeToUser env cbs2 opts optMax optDelay uid mt now st2).fst ∧
    stripGhost (subscribeToUser env cbs opts optMax optDelay uid mt now st1).snd
      = stripGhost (subscribeToUser env cbs2 opts optMax optDelay uid mt now st2).snd := by
  have hs : st1.subscriptions = st2.subscriptions := by
    have hx := congrArg EngineState.subscriptions h
    exact hx
  unfold subscribeToUser
  rw [hs]
  cases regGet st2.subscriptions (normalizeUID uid) with
  | some info =>
    exact ghost_subscribeToUserChecked env cbs cbs2 opts optMax optDelay uid mt now st1 st2 info h
  | none =>
    cases findRemoteUser env.remoteUsers uid with
    | none => exact ⟨rfl, h⟩
    | some userFromSDK =>
      dsimp only
      have h1 : stripGhost (updateSubscriptionInfo uid
          { user := some userFromSDK, hasAudio := some userFromSDK.hasAudio,
            hasVideo := some userFromSDK.hasVideo,
            state := some SubscriptionState.not_subscribed,
            joinedAt := some now } now st1)
          = stripGhost (updateSubscriptionInfo uid
          { user := some userFromSDK, hasAudio := some userFromSDK.hasAudio,
            hasVideo := some userFromSDK.hasVideo,
            state := some SubscriptionState.not_subscribed,
            joinedAt := some now } now st2) :=
        ghost_updateSubscriptionInfo uid _ now st1 st2 h
      have hs1 : (updateSubscriptionInfo uid
          { user := some userFromSDK, hasAudio := some userFromSDK.hasAudio,
            hasVideo := some userFromSDK.hasVideo,
            state := some SubscriptionState.not_subscribed,
            joinedAt := some now } now st1).subscriptions
          = (updateSubscriptionInfo uid
          { user := some userFromSDK, hasAudio := some userFromSDK.hasAudio,
            hasVideo := some userFromSDK.hasVideo,
            state := some SubscriptionState.not_subscribed,
            joinedAt := some now } now st2).subscriptions := by
        have hx := congrArg EngineState.subscriptions h1
        exact hx
      rw [hs1]
      cases regGet (updateSubscriptionInfo uid
          { user := some userFromSDK, hasAudio := some userFromSDK.hasAudio,
            hasVideo := some userFromSDK.hasVideo,
            state := some SubscriptionState.not_subscribed,
            joinedAt := some now } now st2).subscriptions (normalizeUID uid) with
      | some info =>
        exact ghost_subscribeToUserChecked env cbs cbs2 opts optMax optDelay uid mt now _ _ info h1
      | none => exact ⟨rfl, h1⟩

theorem ghost_withTimers (T : List (UID × Nat)) (st1 st2 : EngineState)
    (h : stripGhost st1 = stripGhost st2) :
    stripGhost { st1 with retryTimers := T }
      = stripGhost { st2 with retryTimers := T } := by
  rw [stripGhost_eq_iff] at h ⊢
  obtain ⟨h1, h2, h3, h4, h5, h6, h7⟩ := h
  exact ⟨h1, h2, rfl, h4, h5, h6, h7⟩

theorem ghost_withTimersId (T : List (UID × Nat)) (n : Nat) (st1 st2 : EngineState)
    (h : stripGhost st1 = stripGhost st2) :
    stripGhost { st1 with retryTimers := T, nextTimerId := n }
      = stripGhost { st2 with retryTimers := T, nextTimerId := n } := by
  rw [stripGhost_eq_iff] at h ⊢
  obtain ⟨h1, h2, h3, h4, h5, h6, h7⟩ := h
  exact ⟨h1, h2, rfl, rfl, h5, h6, h7⟩

theorem ghost_withUnsub (n : Nat) (st1 st2 : EngineState)
    (h : stripGhost st1 = stripGhost st2) :
    stripGhost { st1 with unsubscribeCalls := n }
      = stripGhost { st2 with unsubscribeCalls := n } := by
  rw [stripGhost_eq_iff] at h ⊢
  obtain ⟨h1, h2, h3, h4, h5, h6, h7⟩ := h
  exact ⟨h1, h2, h3, h4, h5, rfl, h7⟩

theorem ghost_clearBot (uid : UID) (st1 st2 : EngineState)
    (h : stripGhost st1 = stripGhost st2) :
    stripGhost (clearBotSubscriptionRetry uid st1)
      = stripGhost (clearBotSubscriptionRetry uid st2) := by
  have ht : st1.retryTimers = st2.retryTimers := by
    have hx := congrArg EngineState.retryTimers h
    exact hx
  unfold clearBotSubscriptionRetry
  rw [ht]
  cases timersGet st2.retryTimers uid with
  | none => exact h
  | some timerId =>
    dsimp only
    by_cases hz : (timerId != 0) = true
    · rw [if_pos hz, if_pos hz]
      exact ghost_withTimers (timersDelete st2.retryTimers uid) st1 st2 h
    · rw [if_neg hz, if_neg hz]
      exact h

theorem ghost_scheduleBot (uid : UID) (st1 st2 : EngineState)
    (h : stripGhost st1 = stripGhost st2) :
    stripGhost (scheduleBotSubscriptionRetry uid st1)
      = stripGhost (scheduleBotSubscriptionRetry uid st2) := by
  have hc := ghost_clearBot uid st1 st2 h
  have ht : (clearBotSubscriptionRetry uid st1).retryTimers
      = (clearBotSubscriptionRetry uid st2).retryTimers := by
    have hx := congrArg EngineState.retryTimers hc
    exact hx
  have hn : (clearBotSubscriptionRetry uid st1).nextTimerId
      = (clearBotSubscriptionRetry uid st2).nextTimerId := by
    have hx := congrArg EngineState.nextTimerId hc
    exact hx
  unfold scheduleBotSubscriptionRetry
  dsimp only
  rw [ht, hn]
  exact ghost_withTimersId
    (timersSet (clearBotSubscriptionRetry uid st2).retryTimers uid
      (clearBotSubscriptionRetry uid st2).nextTimerId)
    ((clearBotSubscriptionRetry uid st2).nextTimerId + 1)
    (clearBotSubscriptionRetry uid st1) (clearBotSubscriptionRetry uid st2) hc

theorem ghost_cleanup (uid : UID) (st1 st2 : EngineState)
    (h : stripGhost st1 = stripGhost st2) :
    stripGhost (cleanupUserSubscription uid st1)
      = stripGhost (cleanupUserSubscription uid st2) := by
  have ht : st1.retryTimers = st2.retryTimers := by
    have hx := congrArg EngineState.retryTimers h
    exact hx
  have hs : st1.subscriptions = st2.subscriptions := by
    have hx := congrArg EngineState.subscriptions h
    exact hx
  unfold cleanupUserSubscription
  dsimp only
  rw [ht]
  cases timersGet st2.retryTimers uid with
  | none =>
    rw [hs]
    exact ghost_withSubs (regDeleteRaw st2.subscriptions uid) st1 st2 h
  | some timerId =>
    dsimp only
    by_cases hz : (timerId != 0) = true
    · rw [if_pos hz, if_pos hz]
      have hA := ghost_withTimers (timersDelete st2.retryTimers uid) st1 st2 h
      have hs2 : ({ st1 with retryTimers := timersDelete st2.retryTimers uid } : EngineState).subscriptions
          = ({ st2 with retryTimers := timersDelete st2.retryTimers uid } : EngineState).subscriptions := by
        have hx := congrArg EngineState.subscriptions h
        exact hx
      rw [hs2]
      exact ghost_withSubs
        (regDeleteRaw ({ st2 with retryTimers := timersDelete st2.retryTimers uid } : EngineState).subscriptions uid)
        { st1 with retryTimers := timersDelete st2.retryTimers uid }
        { st2 with retryTimers := timersDelete st2.retryTimers uid } hA
    · rw [if_neg hz, if_neg hz]
      rw [hs]
      exact ghost_withSubs (regDeleteRaw st2.subscriptions uid) st1 st2 h

theorem ghost_handleUserUnpublished (user : RemoteUser) (mt : MediaType)
    (st1 st2 : EngineState) (h : stripGhost st1 = stripGhost st2) :
    stripGhost (handleUserUnpublished user mt st1)
      = stripGhost (handleUserUnpublished user mt st2) := by
  have hs : st1.subscriptions = st2.subscriptions := by
    have hx := congrArg EngineState.subscriptions h
    exact hx
  unfold handleUserUnpublished
  rw [hs]
  cases regGet st2.subscriptions (normalizeUID user.uid) with
  | none => exact h
  | some info =>
    dsimp only
    cases mt with
    | audio => exact ghost_withSubs _ st1 st2 h
    | video => exact ghost_withSubs _ st1 st2 h

theorem ghost_handleUserLeft (user : RemoteUser) (st1 st2 : EngineState)
    (h : stripGhost st1 = stripGhost st2) :
    stripGhost (handleUserLeft user st1) = stripGhost (handleUserLeft user st2) :=
  ghost_cleanup user.uid st1 st2 h

theorem ghost_attemptAuto (env : Env) (cbs cbs2 : Callbacks) (opts : Options)
    (user : RemoteUser) (now : Nat) (st1 st2 : EngineState)
    (h : stripGhost st1 = stripGhost st2) :
    stripGhost (attemptAutoSubscription env cbs opts user now st1)
      = stripGhost (attemptAutoSubscription env cbs2 opts user now st2) := by
  unfold attemptAutoSubscription
  by_cases ha : user.hasAudio = true
  · rw [if_pos ha, if_pos ha]
    exact (ghost_subscribeToUser env cbs cbs2 opts none none user.uid MediaType.audio now st1 st2 h).2
  · rw [if_neg ha, if_neg ha]
    exact h

theorem ghost_handleUserJoined (env : Env) (cbs cbs2 : Callbacks) (opts : Options)
    (user : RemoteUser) (now : Nat) (st1 st2 : EngineState)
    (h : stripGhost st1 = stripGhost st2) :
    stripGhost (handleUserJoined env cbs opts user now st1)
      = stripGhost (handleUserJoined env cbs2 opts user now st2) := by
  unfold handleUserJoined
  dsimp only
  have h1 : stripGhost (updateSubscriptionInfo user.uid
      { state := some SubscriptionState.not_subscribed, user := some user,
        joinedAt := some now, hasAudio := some user.hasAudio,
        hasVideo := some user.hasVideo } now st1)
      = stripGhost (updateSubscriptionInfo user.uid
      { state := some SubscriptionState.not_subscribed, user := some user,
        joinedAt := some now, hasAudio := some user.hasAudio,
        hasVideo := some user.hasVideo } now st2) :=
    ghost_updateSubscriptionInfo user.uid _ now st1 st2 h
  by_cases hb : (user.hasAudio && env.isBot user.uid) = true
  · rw [if_pos hb, if_pos hb]
    refine (ghost_subscribeToUser env cbs cbs2 opts none none user.uid MediaType.audio now _ _ ?_).2
    by_cases hauto : opts.enableAutoSubscribe = true
    · rw [if_pos hauto, if_pos hauto]
      by_cases hmedia : (user.hasAudio || user.hasVideo) = true
      · rw [if_pos hmedia, if_pos hmedia]
        exact ghost_attemptAuto env cbs cbs2 opts user now _ _ h1
      · rw [if_neg hmedia, if_neg hmedia]
        exact h1
    · rw [if_neg hauto, if_neg hauto]
      exact h1
  · rw [if_neg hb, if_neg hb]
    by_cases hauto : opts.enableAutoSubscribe = true
    · rw [if_pos hauto, if_pos hauto]
      by_cases hmedia : (user.hasAudio || user.hasVideo) = true
      · rw [if_pos hmedia, if_pos hmedia]
        exact ghost_attemptAuto env cbs cbs2 opts user now _ _ h1
      · rw [if_neg hmedia, if_neg hmedia]
        exact h1
    · rw [if_neg hauto, if_neg hauto]
      exact h1

theorem ghost_botBranch (env : Env) (cbs cbs2 : Callbacks) (opts : Options)
    (user : RemoteUser) (mt : MediaType) (now : Nat) (st1 st2 : EngineState)
    (h : stripGhost st1 = stripGhost st2) :
    stripGhost (if mt == MediaType.audio && env.isBot user.uid then
        if !isAlreadySubscribed st1 user.uid mt && !user.hasAudio then
          scheduleBotSubscriptionRetry user.uid st1
        else if !isAlreadySubscribed st1 user.uid mt && user.hasAudio then
          (subscribeToUser env cbs opts none none user.uid mt now st1).snd
        else st1
      else st1)
      = stripGhost (if mt == MediaType.audio && env.isBot user.uid then
        if !isAlreadySubscribed st2 user.uid mt && !user.hasAudio then
          scheduleBotSubscriptionRetry user.uid st2
        else if !isAlreadySubscribed st2 user.uid mt && user.hasAudio then
          (subscribeToUser env cbs2 opts none none user.uid mt now st2).snd
        else st2
      else st2) := by
  by_cases hbot : (mt == MediaType.audio && env.isBot user.uid) = true
  · rw [if_pos hbot, if_pos hbot]
    rw [ghost_isAlreadySubscribed st1 st2 user.uid mt h]
    by_cases h1 : (!isAlreadySubscribed st2 user.uid mt && !user.hasAudio) = true
    · rw [if_pos h1, if_pos h1]
      exact ghost_scheduleBot user.uid st1 st2 h
    · rw [if_neg h1, if_neg h1]
      by_cases h2 : (!isAlreadySubscribed st2 user.uid mt && user.hasAudio) = true
      · rw [if_pos h2, if_pos h2]
        exact (ghost_subscribeToUser env cbs cbs2 opts none none user.uid mt now st1 st2 h).2
      · rw [if_neg h2, if_neg h2]
        exact h
  · rw [if_neg hbot, if_neg hbot]
    exact h

theorem ghost_handleUserPublished (env : Env) (cbs cbs2 : Callbacks) (opts : Options)
    (user : RemoteUser) (mt : MediaType) (now : Nat) (st1 st2 : EngineState)
    (h : stripGhost st1 = stripGhost st2) :
    stripGhost (handleUserPublished env cbs opts user mt now st1)
      = stripGhost (handleUserPublished env cbs2 opts user mt now st2) := by
  have hs : st1.subscriptions = st2.subscriptions := by
    have hx := congrArg EngineState.subscriptions h
    exact hx
  unfold handleUserPublished
  dsimp only
  rw [hs]
  cases regGet st2.subscriptions (normalizeUID user.uid) with
  | some info =>
    by_cases hauto : (opts.enableAutoSubscribe && mt == MediaType.audio) = true
    · rw [if_pos hauto, if_pos hauto]
      exact ghost_botBranch env cbs cbs2 opts user mt now _ _
        ((ghost_subscribeToUser env cbs cbs2 opts none none user.uid mt now _ _
          (ghost_withSubs _ st1 st2 h)).2)
    · rw [if_neg hauto, if_neg hauto]
      exact ghost_botBranch env cbs cbs2 opts user mt now _ _ (ghost_withSubs _ st1 st2 h)
  | none =>
    by_cases hauto : (opts.enableAutoSubscribe && mt == MediaType.audio) = true
    · rw [if_pos hauto, if_pos hauto]
      exact ghost_botBranch env cbs cbs2 opts user mt now _ _
        ((ghost_subscribeToUser env cbs cbs2 opts none none user.uid mt now _ _
          (ghost_updateSubscriptionInfo user.uid _ now st1 st2 h)).2)
    · rw [if_neg hauto, if_neg hauto]
      exact ghost_botBranch env cbs cbs2 opts user mt now _ _
        (ghost_updateSubscriptionInfo user.uid _ now st1 st2 h)

theorem ghost_unsubscribeFromUser (env : Env) (cbs cbs2 : Callbacks) (opts : Options)
    (uid : UID) (mt : MediaType) (now : Nat) (st1 st2 : EngineState)
    (h : stripGhost st1 = stripGhost st2) :
    (unsubscribeFromUser env cbs opts uid mt now st1).fst
      = (unsubscribeFromUser env cbs2 opts uid mt now st2).fst ∧
    stripGhost (unsubscribeFromUser env cbs opts uid mt now st1).snd
      = stripGhost (unsubscribeFromUser env cbs2 opts uid mt now st2).snd := by
  have hs : st1.subscriptions = st2.subscriptions := by
    have hx := congrArg EngineState.subscriptions h
    exact hx
  unfold unsubscribeFromUser
  rw [hs]
  cases regGet st2.subscriptions (normalizeUID uid) with
  | none => exact ⟨rfl, h⟩
  | some info =>
    dsimp only
    cases info.user with
    | none => exact ⟨rfl, h⟩
    | some user =>
      dsimp only
      have hU : stripGhost (updateSubscriptionState cbs uid mt
          SubscriptionState.unsubscribing now st1)
          = stripGhost (updateSubscriptionState cbs2 uid mt
          SubscriptionState.unsubscribing now st2) :=
        ghost_updateSubscriptionState cbs cbs2 uid mt SubscriptionState.unsubscribing now st1 st2 h
      have hcalls : (updateSubscriptionState cbs uid mt
          SubscriptionState.unsubscribing now st1).unsubscribeCalls
          = (updateSubscriptionState cbs2 uid mt
          SubscriptionState.unsubscribing now st2).unsubscribeCalls := by
        have hx := congrArg EngineState.unsubscribeCalls hU
        exact hx
      rw [hcalls]
      cases env.unsubscribeOutcome (updateSubscriptionState cbs2 uid mt
          SubscriptionState.unsubscribing now st2).unsubscribeCalls user mt with
      | none =>
        refine ⟨rfl, ?_⟩
        exact ghost_updateSubscriptionState cbs cbs2 uid mt
          SubscriptionState.not_subscribed now _ _ (ghost_withUnsub _ _ _ hU)
      | some e =>
        refine ⟨rfl, ?_⟩
        exact ghost_updateSubscriptionState cbs cbs2 uid mt
          SubscriptionState.subscription_failed now _ _ (ghost_withUnsub _ _ _ hU)

theorem ghost_applyOp (env : Env) (cbs cbs2 : Callbacks) (opts : Options) (op : EngineOp)
    (now : Nat) (st1 st2 : EngineState) (h : stripGhost st1 = stripGhost st2) :
    stripGhost (applyOp env cbs opts op now st1)
      = stripGhost (applyOp env cbs2 opts op now st2) := by
  cases op with
  | joined u => exact ghost_handleUserJoined env cbs cbs2 opts u now st1 st2 h
  | published u mt => exact ghost_handleUserPublished env cbs cbs2 opts u mt now st1 st2 h
  | unpublished u mt => exact ghost_handleUserUnpublished u mt st1 st2 h
  | left u => exact ghost_handleUserLeft u st1 st2 h
  | subscribe uid mt =>
    exact (ghost_subscribeToUser env cbs cbs2 opts none none uid mt now st1 st2 h).2
  | unsubscribe uid mt =>
    exact (ghost_unsubscribeFromUser env cbs cbs2 opts uid mt now st1 st2 h).2

/-! ## Claim theorems (easy group) -/

/-- C9: for a participant id with no record in the registry, setting a media
state via updateSubscriptionState is a complete no-op: the returned state is
the input state, so no record is created, no record changes, and the
state-change callback is not invoked (even the ghost callback counters and
caught-error log are unchanged). -/
theorem C9_setState_missing_record_noop (cbs : Callbacks) (uid : UID) (mt : MediaType)
    (s : SubscriptionState) (now : Nat) (st : EngineState)
    (h : regGet st.subscriptions (normalizeUID uid) = none) :
    updateSubscriptionState cbs uid mt s now st = st := by
  unfold updateSubscriptionState
  rw [h]

/-- Witness for C9 at the empty engine state and uid "ghost". -/
theorem C9_setState_missing_record_noop_witness :
    regGet (EngineState.subscriptions {}) (normalizeUID (UID.str "ghost")) = none ∧
    updateSubscriptionState noCallbacks (UID.str "ghost") MediaType.audio
      SubscriptionState.subscribed 5 {} = {} :=
  ⟨by decide,
   C9_setState_missing_record_noop noCallbacks (UID.str "ghost") MediaType.audio
     SubscriptionState.subscribed 5 {} (by decide)⟩

/-- C4: evaluation of the polling-retry parameters for a manager constructed
without explicit maxRetryAttempts or retryDelay options: the attempt budget
resolves to 3 and the poll interval to 2000 time units - not the claimed 5
and 1000 - because the constructor defaults (3 and 2000) are truthy and
shadow the local fallbacks maxRetryAttempts || 5 and retryDelay || 1000 of
scheduleBotSubscriptionRetry, whose own comments promise 5 attempts and a
one-second interval. -/
theorem C4_bot_retry_default_params :
    botRetryMaxAttempts defaultOptions = 3 ∧ botRetryDelay defaultOptions = 2000 := by
  decide

/-- C2: counterexample evaluation showing the claim fails on the code: a
participant whose uid arrives as the number 123 is registered under the
canonical key "123" by the joined handler, but the left handler deletes with
the raw numeric uid, which matches no string key, so after left the registry
still holds a record whose canonical id matches the participant. -/
theorem C2_left_numeric_uid_record_survives :
    (regGet (applyOp envInert noCallbacks defaultOptions (EngineOp.left userNum123) 1
        (applyOp envInert noCallbacks defaultOptions (EngineOp.joined userNum123) 0
          {})).subscriptions
      (normalizeUID (UID.num 123))).isSome = true := by
  decide

/-- C1 counterexample: a reachable record (joined with audio, auto-subscribe
succeeded, then an unpublished(audio) notification) has audioSubscribed =
false while audioState is still SUBSCRIBED, so the lock-step equivalence does
not hold after the unpublished event handler. -/
theorem C1_counterexample :
    (regGet (applyOp envAlwaysOk noCallbacks defaultOptions
        (EngineOp.unpublished userP MediaType.audio) 1
        (applyOp envAlwaysOk noCallbacks defaultOptions
          (EngineOp.joined userP) 0 {})).subscriptions "p").map
      (fun i => (i.audioSubscribed, i.audioState))
    = some (false, some SubscriptionState.subscribed) := by
  decide

/-- C8 counterexample: participant "q" joins at time 5 and again at time 9;
the second joined notification overwrites joinedAt (its handler passes a
fresh joinedAt to the upsert, and patch fields win in the spread merge), so
joinedAt ends as 9, not the original 5. -/
theorem C8_counterexample :
    (regGet (applyOp envInert noCallbacks defaultOptions (EngineOp.joined userQ) 5
        {}).subscriptions "q").map (fun i => i.joinedAt) = some (some 5) ∧
    (regGet (applyOp envInert noCallbacks defaultOptions (EngineOp.joined userQ) 9
        (applyOp envInert noCallbacks defaultOptions (EngineOp.joined userQ) 5
          {})).subscriptions "q").map (fun i => i.joinedAt) = some (some 9) := by
  decide

/-- C5 counterexample: the record of "p" is marked subscribed for audio (flag
true and audioState SUBSCRIBED) after a successful auto-subscription, and a
later published(video) notification refreshed the stored user object to one
reporting hasAudio = false; subscribeToUser("p", audio) then returns false -
the availability check on the stored user object precedes the
already-subscribed short-circuit - instead of the claimed unconditional
no-op success. -/
theorem C5_counterexample :
    (regGet (applyOp envAlwaysOk noCallbacks defaultOptions
        (EngineOp.published userPV MediaType.video) 1
        (applyOp envAlwaysOk noCallbacks defaultOptions
          (EngineOp.joined userP) 0 {})).subscriptions "p").map
      (fun i => (i.audioSubscribed, i.audioState))
      = some (true, some SubscriptionState.subscribed) ∧
    subscribeToUser envAlwaysOk noCallbacks defaultOptions none none
      (UID.str "p") MediaType.audio 2
      (applyOp envAlwaysOk noCallbacks defaultOptions
        (EngineOp.published userPV MediaType.video) 1
        (applyOp envAlwaysOk noCallbacks defaultOptions
          (EngineOp.joined userP) 0 {}))
      = (false,
         applyOp envAlwaysOk noCallbacks defaultOptions
           (EngineOp.published userPV MediaType.video) 1
           (applyOp envAlwaysOk noCallbacks defaultOptions
             (EngineOp.joined userP) 0 {})) := by
  constructor
  · decide
  · decide

/-- C5 amended: for a record whose media kind is marked subscribed and whose
stored user object still reports that kind available, subscribeToUser is a
no-op success: it returns true and the state is unchanged (hence no history
entry, no external subscribe call, and the retry loop is never entered). -/
theorem C5_amended_idempotent_success (env : Env) (cbs : Callbacks) (opts : Options)
    (optMax optDelay : Option Nat) (uid : UID) (mt : MediaType) (now : Nat)
    (st : EngineState) (info : SubscriptionInfo) (user : RemoteUser)
    (h : regGet st.subscriptions (normalizeUID uid) = some info)
    (hu : info.user = some user)
    (hav : kindAvailable mt user = true)
    (hsub : kindSubscribed mt info = true) :
    subscribeToUser env cbs opts optMax optDelay uid mt now st = (true, st) := by
  have hsub2 : isAlreadySubscribed st uid mt = true := by
    unfold isAlreadySubscribed
    rw [h]
    cases mt <;> simpa [kindSubscribed] using hsub
  unfold subscribeToUser subscribeToUserChecked
  rw [h]
  cases mt <;> simp_all [kindAvailable]

/-- Witness for C5 amended at a concrete subscribed record. -/
theorem C5_amended_idempotent_success_witness :
    subscribeToUser envInert noCallbacks defaultOptions none none
      (UID.str "w") MediaType.audio 3
      { subscriptions := [("w",
          { user := some { uid := UID.str "w", hasAudio := true, hasVideo := false },
            hasAudio := true,
            audioState := some SubscriptionState.subscribed,
            audioSubscribed := true })] }
      = (true,
         { subscriptions := [("w",
             { user := some { uid := UID.str "w", hasAudio := true, hasVideo := false },
               hasAudio := true,
               audioState := some SubscriptionState.subscribed,
               audioSubscribed := true })] }) :=
  C5_amended_idempotent_success envInert noCallbacks defaultOptions none none
    (UID.str "w") MediaType.audio 3 _
    { user := some { uid := UID.str "w", hasAudio := true, hasVideo := false },
      hasAudio := true,
      audioState := some SubscriptionState.subscribed,
      audioSubscribed := true }
    { uid := UID.str "w", hasAudio := true, hasVideo := false }
    (by decide) (by decide) (by decide) (by decide)

theorem subscribeToUser_enters_retry (env : Env) (cbs : Callbacks) (opts : Options)
    (optMax optDelay : Option Nat) (uid : UID) (mt : MediaType) (now : Nat)
    (st : EngineState) (info : SubscriptionInfo) (user : RemoteUser)
    (h : regGet st.subscriptions (normalizeUID uid) = some info)
    (hu : info.user = some user)
    (hav : kindAvailable mt user = true)
    (hsub : kindSubscribed mt info = false) :
    subscribeToUser env cbs opts optMax optDelay uid mt now st
      = subscribeWithRetry env cbs opts optMax optDelay uid user mt now st := by
  have hsub2 : isAlreadySubscribed st uid mt = false := by
    unfold isAlreadySubscribed
    rw [h]
    cases mt <;> simpa [kindSubscribed] using hsub
  unfold subscribeToUser subscribeToUserChecked
  rw [h]
  cases mt <;> simp_all [kindAvailable]

/-- C3: with the default configuration (maxRetryAttempts 3, retryDelay 2000)
and a registered record whose history is below the trim threshold,
subscribeWithRetry behaves as claimed.  If every attempt raises (or times
out, which surfaces as a raised outcome), the loop sleeps 2000 between
attempts 1 and 2, then 4000 between attempts 2 and 3, finishes with the
record state SUBSCRIPTION_FAILED for the requested kind, returns false, and
appends exactly three failure history entries.  If instead the first, second,
or third attempt resolves with a truthy result, the call returns true early,
with the state SUBSCRIBED, exactly one success entry appended after the
failure entries of the preceding attempts, and only the backoff sleeps of
the preceding failed attempts. -/
theorem C3_backoff_and_history (env : Env) (cbs : Callbacks) (uid : UID)
    (user : RemoteUser) (mt : MediaType) (now : Nat) (st : EngineState)
    (i : SubscriptionInfo)
    (hreg : regGet st.subscriptions (normalizeUID uid) = some i)
    (hlen : st.subscriptionHistory.length ≤ 97) :
    (∀ m1 m2 m3 : String,
      env.subscribeOutcome st.subscribeCalls user mt = SubscribeOutcome.raised m1 →
      env.subscribeOutcome (st.subscribeCalls + 1) user mt = SubscribeOutcome.raised m2 →
      env.subscribeOutcome (st.subscribeCalls + 2) user mt = SubscribeOutcome.raised m3 →
      (subscribeWithRetry env cbs defaultOptions none none uid user mt now st).fst = false ∧
      (subscribeWithRetry env cbs defaultOptions none none uid user mt now st).snd.sleeps
        = st.sleeps ++ [2000, 4000] ∧
      (subscribeWithRetry env cbs defaultOptions none none uid user mt
          now st).snd.subscriptionHistory
        = st.subscriptionHistory ++
          [({ uid := uid, mediaType := mt, success := false, attempt := 1,
              timestamp := now, errorMessage := some m1 } : HistoryRecord),
           ({ uid := uid, mediaType := mt, success := false, attempt := 2,
              timestamp := now, errorMessage := some m2 } : HistoryRecord),
           ({ uid := uid, mediaType := mt, success := false, attempt := 3,
              timestamp := now, errorMessage := some m3 } : HistoryRecord)] ∧
      (regGet (subscribeWithRetry env cbs defaultOptions none none uid user mt
          now st).snd.subscriptions (normalizeUID uid)).map (kindState mt)
        = some (some SubscriptionState.subscription_failed)) ∧
    (env.subscribeOutcome st.subscribeCalls user mt = SubscribeOutcome.resolved true →
      (subscribeWithRetry env cbs defaultOptions none none uid user mt now st).fst = true ∧
      (subscribeWithRetry env cbs defaultOptions none none uid user mt now st).snd.sleeps
        = st.sleeps ∧
      (subscribeWithRetry env cbs defaultOptions none none uid user mt
          now st).snd.subscriptionHistory
        = st.subscriptionHistory ++
          [({ uid := uid, mediaType := mt, success := true, attempt := 1,
              timestamp := now, errorMessage := none } : HistoryRecord)] ∧
      (regGet (subscribeWithRetry env cbs defaultOptions none none uid user mt
          now st).snd.subscriptions (normalizeUID uid)).map (kindState mt)
        = some (some SubscriptionState.subscribed)) ∧
    (∀ m1 : String,
      env.subscribeOutcome st.subscribeCalls user mt = SubscribeOutcome.raised m1 →
      env.subscribeOutcome (st.subscribeCalls + 1) user mt = SubscribeOutcome.resolved true →
      (subscribeWithRetry env cbs defaultOptions none none uid user mt now st).fst = true ∧
      (subscribeWithRetry env cbs defaultOptions none none uid user mt now st).snd.sleeps
        = st.sleeps ++ [2000] ∧
      (subscribeWithRetry env cbs defaultOptions none none uid user mt
          now st).snd.subscriptionHistory
        = st.subscriptionHistory ++
          [({ uid := uid, mediaType := mt, success := false, attempt := 1,
              timestamp := now, errorMessage := some m1 } : HistoryRecord),
           ({ uid := uid, mediaType := mt, success := true, attempt := 2,
              timestamp := now, errorMessage := none } : HistoryRecord)] ∧
      (regGet (subscribeWithRetry env cbs defaultOptions none none uid user mt
          now st).snd.subscriptions (normalizeUID uid)).map (kindState mt)
        = some (some SubscriptionState.subscribed)) ∧
    (∀ m1 m2 : String,
      env.subscribeOutcome st.subscribeCalls user mt = SubscribeOutcome.raised m1 →
      env.subscribeOutcome (st.subscribeCalls + 1) user mt = SubscribeOutcome.raised m2 →
      env.subscribeOutcome (st.subscribeCalls + 2) user mt = SubscribeOutcome.resolved true →
      (subscribeWithRetry env cbs defaultOptions none none uid user mt now st).fst = true ∧
      (subscribeWithRetry env cbs defaultOptions none none uid user mt now st).snd.sleeps
        = st.sleeps ++ [2000, 4000] ∧
      (subscribeWithRetry env cbs defaultOptions none none uid user mt
          now st).snd.subscriptionHistory
        = st.subscriptionHistory ++
          [({ uid := uid, mediaType := mt, success := false, attempt := 1,
              timestamp := now, errorMessage := some m1 } : HistoryRecord),
           ({ uid := uid, mediaType := mt, success := false, attempt := 2,
              timestamp := now, errorMessage := some m2 } : HistoryRecord),
           ({ uid := uid, mediaType := mt, success := true, attempt := 3,
              timestamp := now, errorMessage := none } : HistoryRecord)] ∧
      (regGet (subscribeWithRetry env cbs defaultOptions none none uid user mt
          now st).snd.subscriptions (normalizeUID uid)).map (kindState mt)
        = some (some SubscriptionState.subscribed)) := by
  refine ⟨fun m1 m2 m3 h1 h2 h3 =>
      retryDefaultAllFail env cbs uid user mt now st i m1 m2 m3 hreg hlen h1 h2 h3,
    fun h1 =>
      retryDefaultSuccessAt1 env cbs uid user mt now st i hreg (by omega) h1,
    fun m1 h1 h2 =>
      retryDefaultSuccessAt2 env cbs uid user mt now st i m1 hreg (by omega) h1 h2,
    fun m1 m2 h1 h2 h3 =>
      retryDefaultSuccessAt3 env cbs uid user mt now st i m1 m2 hreg hlen h1 h2 h3⟩

/-- Witness for C3 at the concrete state stW: the all-fail branch at uid "w"
with rejection messages "0", "1", "2". -/
theorem C3_backoff_and_history_witness :
    (subscribeWithRetry envRaiseN noCallbacks defaultOptions none none (UID.str "w")
        userW MediaType.audio 7 stW).fst = false ∧
    (subscribeWithRetry envRaiseN noCallbacks defaultOptions none none (UID.str "w")
        userW MediaType.audio 7 stW).snd.sleeps = stW.sleeps ++ [2000, 4000] :=
  let h := (C3_backoff_and_history envRaiseN noCallbacks (UID.str "w") userW
    MediaType.audio 7 stW infoW (by decide) (by decide)).1 "0" "1" "2"
    (by decide) (by decide) (by decide)
  ⟨h.1, h.2.1⟩

/-- C10: when every external subscribe call settles with a falsy result, each
attempt of subscribeToUser (entered with an available, not-yet-subscribed
record) appends no history entry, performs no backoff sleep, never invokes
the failure callback, and does not reach SUBSCRIPTION_FAILED: after the
three-attempt default budget is exhausted this way, subscribeToUser returns
false, three external subscribe calls have been made, and the record state
of the requested kind remains SUBSCRIBING. -/
theorem C10_falsy_result_attempts (env : Env) (cbs : Callbacks) (uid : UID)
    (mt : MediaType) (now : Nat) (st : EngineState) (info : SubscriptionInfo)
    (user : RemoteUser)
    (hreg : regGet st.subscriptions (normalizeUID uid) = some info)
    (hu : info.user = some user)
    (hav : kindAvailable mt user = true)
    (hsub : kindSubscribed mt info = false)
    (h1 : env.subscribeOutcome st.subscribeCalls user mt = SubscribeOutcome.resolved false)
    (h2 : env.subscribeOutcome (st.subscribeCalls + 1) user mt = SubscribeOutcome.resolved false)
    (h3 : env.subscribeOutcome (st.subscribeCalls + 2) user mt = SubscribeOutcome.resolved false) :
    (subscribeToUser env cbs defaultOptions none none uid mt now st).fst = false ∧
    (subscribeToUser env cbs defaultOptions none none uid mt now st).snd.subscriptionHistory
      = st.subscriptionHistory ∧
    (subscribeToUser env cbs defaultOptions none none uid mt now st).snd.sleeps = st.sleeps ∧
    (subscribeToUser env cbs defaultOptions none none uid mt now st).snd.failedCbCalls
      = st.failedCbCalls ∧
    (subscribeToUser env cbs defaultOptions none none uid mt now st).snd.subscribeCalls
      = st.subscribeCalls + 3 ∧
    (regGet (subscribeToUser env cbs defaultOptions none none uid mt
        now st).snd.subscriptions (normalizeUID uid)).map (kindState mt)
      = some (some SubscriptionState.subscribing) := by
  have hent := subscribeToUser_enters_retry env cbs defaultOptions none none uid mt now st
    info user hreg hu hav hsub
  have f1 := subscribeWithRetryLoop_falsy_step env cbs 3 2000 uid user mt now 1 2 st info
    hreg h1
  norm_num at f1
  have hrB1 : regGet (attemptStateBump cbs uid mt now info st).subscriptions (normalizeUID uid)
      = some (setKindState info mt SubscriptionState.subscribing now) := by
    simp [regGet_regSet_self]
  have hcB1 : (attemptStateBump cbs uid mt now info st).subscribeCalls
      = st.subscribeCalls + 1 := by
    simp
  have f2 := subscribeWithRetryLoop_falsy_step env cbs 3 2000 uid user mt now 2 1
    (attemptStateBump cbs uid mt now info st)
    (setKindState info mt SubscriptionState.subscribing now) hrB1
    (by rw [hcB1]; exact h2)
  norm_num at f2
  have hrB2 : regGet (attemptStateBump cbs uid mt now
      (setKindState info mt SubscriptionState.subscribing now)
      (attemptStateBump cbs uid mt now info st)).subscriptions (normalizeUID uid)
      = some (setKindState info mt SubscriptionState.subscribing now) := by
    simp [regGet_regSet_self, regSet_regSet]
  have hcB2 : (attemptStateBump cbs uid mt now
      (setKindState info mt SubscriptionState.subscribing now)
      (attemptStateBump cbs uid mt now info st)).subscribeCalls
      = st.subscribeCalls + 2 := by
    simp
  have f3 := subscribeWithRetryLoop_falsy_step env cbs 3 2000 uid user mt now 3 0
    (attemptStateBump cbs uid mt now
      (setKindState info mt SubscriptionState.subscribing now)
      (attemptStateBump cbs uid mt now info st))
    (setKindState info mt SubscriptionState.subscribing now) hrB2
    (by rw [hcB2]; exact h3)
  norm_num at f3
  rw [hent, subscribeWithRetry_default_eq_loop]
  rw [f1, f2, f3, subscribeWithRetryLoop_fuel_zero]
  refine ⟨rfl, by simp, by simp, by simp, by simp, ?_⟩
  simp [regGet_regSet_self, regSet_regSet]

/-- Witness for C10 at the concrete state stW under the always-falsy
environment. -/
theorem C10_falsy_result_attempts_witness :
    (subscribeToUser envFalsy noCallbacks defaultOptions none none (UID.str "w")
        MediaType.audio 4 stW).fst = false ∧
    (subscribeToUser envFalsy noCallbacks defaultOptions none none (UID.str "w")
        MediaType.audio 4 stW).snd.subscriptionHistory = stW.subscriptionHistory :=
  let h := C10_falsy_result_attempts envFalsy noCallbacks (UID.str "w") MediaType.audio 4 stW
    infoW userW (by decide) (by decide) (by decide) (by decide)
    (by decide) (by decide) (by decide)
  ⟨h.1, h.2.1⟩

set_option maxRecDepth 100000 in
/-- C6: the subscription history never exceeds 100 entries after an append
completes; an append that would push the length past 100 trims to exactly the
most recent 50; and after 101 recorded attempts from an empty history, the
history is exactly the most recent 50 of the 101 entries (the oldest 51 are
gone). -/
theorem C6_history_bound_and_trim :
    (∀ (hist : List HistoryRecord) (uid : UID) (mt : MediaType) (success : Bool)
        (attempt : Nat) (msg : Option String) (now : Nat),
        hist.length ≤ 100 →
        (recordSubscriptionAttempt uid mt success attempt msg now hist).length ≤ 100) ∧
    (∀ (hist : List HistoryRecord) (uid : UID) (mt : MediaType) (success : Bool)
        (attempt : Nat) (msg : Option String) (now : Nat),
        hist.length = 100 →
        recordSubscriptionAttempt uid mt success attempt msg now hist
          = (hist ++ [({ uid := uid, mediaType := mt, success := success,
                         attempt := attempt, timestamp := now,
                         errorMessage := msg } : HistoryRecord)]).drop 51 ∧
        (recordSubscriptionAttempt uid mt success attempt msg now hist).length = 50) ∧
    ((List.range 101).foldl
        (fun h n => recordSubscriptionAttempt (UID.num 1) MediaType.audio true (n + 1) none n h)
        []
      = ((List.range 101).map (fun n =>
          ({ uid := UID.num 1, mediaType := MediaType.audio, success := true,
             attempt := n + 1, timestamp := n, errorMessage := none } : HistoryRecord))).drop 51 ∧
     ((List.range 101).foldl
        (fun h n => recordSubscriptionAttempt (UID.num 1) MediaType.audio true (n + 1) none n h)
        []).length = 50) := by
  refine ⟨?_, ?_, ?_⟩
  · intro hist uid mt success attempt msg now hlen
    simp only [recordSubscriptionAttempt]
    split
    · rename_i hcond
      simp
      omega
    · rename_i hcond
      simp at hcond ⊢
      omega
  · intro hist uid mt success attempt msg now hlen
    constructor
    · simp only [recordSubscriptionAttempt]
      rw [if_pos (by simp [hlen])]
      simp [hlen]
    · simp only [recordSubscriptionAttempt]
      rw [if_pos (by simp [hlen])]
      simp [hlen]
  · constructor
    · decide
    · decide

/-- Witness for C6 at concrete histories: the trim fires on a 100-entry
history leaving 50 entries, and the bound holds on a 3-entry history. -/
theorem C6_history_bound_and_trim_witness :
    (recordSubscriptionAttempt (UID.str "h") MediaType.audio false 2 none 9
        (List.replicate 100 r0)).length = 50 ∧
    (recordSubscriptionAttempt (UID.str "h") MediaType.audio false 2 none 9
        (List.replicate 3 r0)).length ≤ 100 :=
  ⟨(C6_history_bound_and_trim.2.1 (List.replicate 100 r0) (UID.str "h") MediaType.audio
      false 2 none 9 (by decide)).2,
   C6_history_bound_and_trim.1 (List.replicate 3 r0) (UID.str "h") MediaType.audio
      false 2 none 9 (by decide)⟩

/-- C7: a consumer callback that throws is contained at its call site.  Every
callback invocation in the engine goes through noteCallbackOutcome, which
catches a thrown exception and logs it; therefore replacing one set of
callbacks by any other (in particular, replacing throwing callbacks by no
callbacks at all) changes nothing the engine itself stores or does: the
boolean results of subscribeToUser and unsubscribeFromUser are unchanged, and
the states they and every dispatched engine operation produce agree after
stripGhost, i.e. on the registry, the history, the timers, the external call
counts and the sleeps - the engine's own transitions and history recording
complete as if the callbacks never threw, and no exception escapes. -/
theorem C7_callback_exceptions_contained (env : Env) (cbs cbs2 : Callbacks)
    (opts : Options) (optMax optDelay : Option Nat) (uid : UID) (mt : MediaType)
    (op : EngineOp) (now : Nat) (st : EngineState) :
    (subscribeToUser env cbs opts optMax optDelay uid mt now st).fst
      = (subscribeToUser env cbs2 opts optMax optDelay uid mt now st).fst ∧
    stripGhost (subscribeToUser env cbs opts optMax optDelay uid mt now st).snd
      = stripGhost (subscribeToUser env cbs2 opts optMax optDelay uid mt now st).snd ∧
    (unsubscribeFromUser env cbs opts uid mt now st).fst
      = (unsubscribeFromUser env cbs2 opts uid mt now st).fst ∧
    stripGhost (unsubscribeFromUser env cbs opts uid mt now st).snd
      = stripGhost (unsubscribeFromUser env cbs2 opts uid mt now st).snd ∧
    stripGhost (applyOp env cbs opts op now st)
      = stripGhost (applyOp env cbs2 opts op now st) := by
  obtain ⟨hsf, hss⟩ := ghost_subscribeToUser env cbs cbs2 opts optMax optDelay uid mt now st st rfl
  obtain ⟨huf, hus⟩ := ghost_unsubscribeFromUser env cbs cbs2 opts uid mt now st st rfl
  exact ⟨hsf, hss, huf, hus, ghost_applyOp env cbs cbs2 opts op now st st rfl⟩

end WebSubMgr
